import Mathlib

/-!
Shallow embedding of the three ESP32 firmwares of this repository
(soil-moisture, fire-detection, water-quality) and proofs about the
alert state machines, moving-average / baseline trackers and sensor
calibration they implement.  Analog quantities are modelled as
rationals, ADC raw values as rationals constrained to `[0, ADC_MAX]`,
and each sensor tick as one application of the corresponding step
function; a DHT22 read failure (NaN) is modelled as a `none` input.
-/

set_option maxHeartbeats 1000000

/-- Arduino `constrain(amt, low, high)` macro. -/
def constrain (amt low high : ℚ) : ℚ :=
  if amt < low then low else if amt > high then high else amt

def ADC_MAX : ℚ := 4095

namespace Soil

def MOISTURE_THRESHOLD_LOW : ℚ := 30
def MOISTURE_THRESHOLD_HIGH : ℚ := 35
def TEMP_HEAT_STRESS : ℚ := 35
def HUMIDITY_HEAT_STRESS : ℚ := 40
def PH_MIN : ℚ := 6
def PH_MAX : ℚ := 15/2

/-- `calibrateMoisture`: `100 - ((ADC / 4095) * 100)`, clamped to `[0, 100]`. -/
def calibrateMoisture (adcValue : ℚ) : ℚ :=
  constrain (100 - adcValue / ADC_MAX * 100) 0 100

/-- `calibratePH`: two-point calibration from pH4/pH7 reference voltages,
clamped to `[0, 14]`. -/
def calibratePH (adcValue : ℚ) : ℚ :=
  constrain (7 - (adcValue / ADC_MAX * (33/10) - 3/2) / ((2 - 3/2) / (4 - 7))) 0 14

structure SoilInput where
  humidity : ℚ
  temperature : ℚ
  moistureRaw : ℚ
  phRaw : ℚ
deriving DecidableEq

/-- All mutable globals of the soil firmware that feed the decision logic:
the two-slot moving-average buffers, the alert counters and flags, and the
`currentData` record. -/
structure SoilState where
  moistureBuffer0 : ℚ
  moistureBuffer1 : ℚ
  tempBuffer0 : ℚ
  tempBuffer1 : ℚ
  humidityBuffer0 : ℚ
  humidityBuffer1 : ℚ
  bufferIndex : Nat
  lowMoistureCount : Nat
  heatStressCount : Nat
  phImbalanceCount : Nat
  irrigationAlertActive : Bool
  heatStressAlertActive : Bool
  phImbalanceAlertActive : Bool
  cur_temperature : ℚ
  cur_humidity : ℚ
  cur_soilMoisture : ℚ
  cur_pH : ℚ
  cur_moistureFiltered : ℚ
  cur_tempFiltered : ℚ
  cur_humidityFiltered : ℚ
  cur_irrigationAlert : Bool
  cur_heatStressAlert : Bool
  cur_phAlert : Bool
deriving DecidableEq

def initSoilState : SoilState :=
  { moistureBuffer0 := 0, moistureBuffer1 := 0
    tempBuffer0 := 0, tempBuffer1 := 0
    humidityBuffer0 := 0, humidityBuffer1 := 0
    bufferIndex := 0
    lowMoistureCount := 0, heatStressCount := 0, phImbalanceCount := 0
    irrigationAlertActive := false, heatStressAlertActive := false
    phImbalanceAlertActive := false
    cur_temperature := 0, cur_humidity := 0, cur_soilMoisture := 0, cur_pH := 0
    cur_moistureFiltered := 0, cur_tempFiltered := 0, cur_humidityFiltered := 0
    cur_irrigationAlert := false, cur_heatStressAlert := false, cur_phAlert := false }

/-- `getFilteredMoisture`: sum of all `BUFFER_SIZE = 2` slots / 2. -/
def getFilteredMoisture (s : SoilState) : ℚ :=
  (s.moistureBuffer0 + s.moistureBuffer1) / 2

def getFilteredTemp (s : SoilState) : ℚ :=
  (s.tempBuffer0 + s.tempBuffer1) / 2

def getFilteredHumidity (s : SoilState) : ℚ :=
  (s.humidityBuffer0 + s.humidityBuffer1) / 2

/-- `updateMovingAverage`: store at `bufferIndex`, advance index mod 2. -/
def updateMovingAverage (s : SoilState) (moisture temp humidity : ℚ) : SoilState :=
  if s.bufferIndex = 0 then
    { s with moistureBuffer0 := moisture, tempBuffer0 := temp,
             humidityBuffer0 := humidity, bufferIndex := (s.bufferIndex + 1) % 2 }
  else
    { s with moistureBuffer1 := moisture, tempBuffer1 := temp,
             humidityBuffer1 := humidity, bufferIndex := (s.bufferIndex + 1) % 2 }

/-- `readSensors`: a NaN DHT read (`none`) returns early leaving all state
unchanged; otherwise calibrate, update the moving average and refresh
`currentData`. -/
def readSensors (s : SoilState) (inp : Option SoilInput) : SoilState :=
  match inp with
  | none => s
  | some i =>
      let moisture := calibrateMoisture i.moistureRaw
      let ph := calibratePH i.phRaw
      let t := updateMovingAverage s moisture i.temperature i.humidity
      { t with
        cur_temperature := i.temperature
        cur_humidity := i.humidity
        cur_soilMoisture := moisture
        cur_pH := ph
        cur_moistureFiltered := getFilteredMoisture t
        cur_tempFiltered := getFilteredTemp t
        cur_humidityFiltered := getFilteredHumidity t }

/-- ALERT 1 of `checkAlertConditions` (low soil moisture). -/
def lowMoistureBlock (filteredMoisture : ℚ) (s : SoilState) : SoilState :=
  if filteredMoisture < MOISTURE_THRESHOLD_LOW then
    if 3 ≤ s.lowMoistureCount + 1 then
      { s with lowMoistureCount := s.lowMoistureCount + 1,
               irrigationAlertActive := true, cur_irrigationAlert := true }
    else
      { s with lowMoistureCount := s.lowMoistureCount + 1 }
  else if filteredMoisture > MOISTURE_THRESHOLD_HIGH then
    { s with lowMoistureCount := 0, irrigationAlertActive := false,
             cur_irrigationAlert := false }
  else
    { s with lowMoistureCount := s.lowMoistureCount + 1 }

/-- ALERT 2 of `checkAlertConditions` (heat stress). -/
def heatStressBlock (filteredTemp filteredHumidity : ℚ) (s : SoilState) : SoilState :=
  if filteredTemp > TEMP_HEAT_STRESS ∧ filteredHumidity < HUMIDITY_HEAT_STRESS then
    if 2 ≤ s.heatStressCount + 1 then
      { s with heatStressCount := s.heatStressCount + 1,
               heatStressAlertActive := true, cur_heatStressAlert := true }
    else
      { s with heatStressCount := s.heatStressCount + 1 }
  else
    { s with heatStressCount := 0, heatStressAlertActive := false,
             cur_heatStressAlert := false }

/-- ALERT 3 of `checkAlertConditions` (pH imbalance). -/
def phImbalanceBlock (s : SoilState) : SoilState :=
  if s.cur_pH < PH_MIN ∨ s.cur_pH > PH_MAX then
    if 5 ≤ s.phImbalanceCount + 1 then
      { s with phImbalanceCount := s.phImbalanceCount + 1,
               phImbalanceAlertActive := true, cur_phAlert := true }
    else
      { s with phImbalanceCount := s.phImbalanceCount + 1 }
  else
    { s with phImbalanceCount := 0, phImbalanceAlertActive := false,
             cur_phAlert := false }

/-- `checkAlertConditions`: the three alert blocks in source order, applied to
the filtered values read from the buffers. -/
def checkAlertConditions (s : SoilState) : SoilState :=
  phImbalanceBlock
    (heatStressBlock (getFilteredTemp s) (getFilteredHumidity s)
      (lowMoistureBlock (getFilteredMoisture s) s))

/-- One sensor tick of `loop`: `readSensors` (which may skip on NaN) followed
unconditionally by `checkAlertConditions`. -/
def soilSensorTick (s : SoilState) (inp : Option SoilInput) : SoilState :=
  checkAlertConditions (readSensors s inp)

def soilRun (l : List (Option SoilInput)) : SoilState :=
  l.foldl soilSensorTick initSoilState

/-- Concrete tick whose calibrated moisture (raw 2866) is about 30.01,
inside the dead band [30, 35]. -/
def bandInput : SoilInput := ⟨50, 25, 2866, 2000⟩

/-- Concrete tick with raw 0, calibrating to 100 percent moisture. -/
def highInput : SoilInput := ⟨50, 25, 0, 2000⟩

/-- Concrete tick with raw 1392 (calibrated moisture about 66.0). -/
def rawInput1392 : SoilInput := ⟨50, 25, 1392, 2000⟩

/-- Concrete tick with raw 4013 (calibrated moisture about 2.0). -/
def rawInput4013 : SoilInput := ⟨50, 25, 4013, 2000⟩

/-- Concrete tick with raw 2900 (calibrated moisture about 29.2). -/
def rawInput2900 : SoilInput := ⟨50, 25, 2900, 2000⟩

end Soil

namespace Fire

def TEMP_THRESHOLD : ℚ := 40
def HUMIDITY_THRESHOLD : ℚ := 30
def GAS_BASELINE_INCREASE : ℚ := 20
def MQ2_BASELINE : ℚ := 50
def MQ7_BASELINE : ℚ := 50

/-- `convertMQ2ToPPM`: voltage ratio scaled to `[0, 500]` ppm. -/
def convertMQ2ToPPM (rawValue : ℚ) : ℚ :=
  constrain (rawValue / ADC_MAX * (33/10) / (33/10) * 500) 0 500

/-- `convertMQ7ToPPM`: voltage ratio scaled to `[0, 100]` ppm. -/
def convertMQ7ToPPM (rawValue : ℚ) : ℚ :=
  constrain (rawValue / ADC_MAX * (33/10) / (33/10) * 100) 0 100

structure FireInput where
  temperature : ℚ
  humidity : ℚ
  mq2_raw : ℚ
  mq7_raw : ℚ
  smokeDetected : Bool
deriving DecidableEq

structure FireIndicators where
  tempHigh : Bool
  humidityLow : Bool
  mq2Elevated : Bool
  mq7Elevated : Bool
  smokePresent : Bool
deriving DecidableEq

/-- `evaluateFireIndicators`: threshold each sensor reading. -/
def evaluateFireIndicators (i : FireInput) : FireIndicators :=
  { tempHigh := decide (i.temperature > TEMP_THRESHOLD)
    humidityLow := decide (i.humidity < HUMIDITY_THRESHOLD)
    mq2Elevated := decide (i.mq2_raw > MQ2_BASELINE + GAS_BASELINE_INCREASE)
    mq7Elevated := decide (i.mq7_raw > MQ7_BASELINE + GAS_BASELINE_INCREASE)
    smokePresent := i.smokeDetected }

/-- `currentData.fireIndicators`: count of active indicators. -/
def countIndicators (ind : FireIndicators) : Nat :=
  (if ind.tempHigh then 1 else 0) + (if ind.humidityLow then 1 else 0) +
    (if ind.mq2Elevated then 1 else 0) + (if ind.mq7Elevated then 1 else 0) +
    (if ind.smokePresent then 1 else 0)

/-- Alert counters, flags and the derived `currentData.alertLevel` /
`currentData.fireIndicators` of the fire firmware. -/
structure FireState where
  level1AlertCount : Nat
  level2AlertCount : Nat
  level3AlertCount : Nat
  level1AlertActive : Bool
  level2AlertActive : Bool
  level3AlertActive : Bool
  fireIndicators : Nat
  alertLevel : Nat
deriving DecidableEq

def initFireState : FireState :=
  { level1AlertCount := 0, level2AlertCount := 0, level3AlertCount := 0
    level1AlertActive := false, level2AlertActive := false, level3AlertActive := false
    fireIndicators := 0, alertLevel := 0 }

/-- LEVEL 1 block of `checkFireAlertLevels`. -/
def level1Block (ind : FireIndicators) (fi : Nat) (s : FireState) : FireState :=
  if (ind.tempHigh || ind.humidityLow || ind.mq2Elevated || ind.mq7Elevated) = true ∧ 2 ≤ fi then
    if 5 ≤ s.level1AlertCount + 1 then
      { s with level1AlertCount := s.level1AlertCount + 1,
               level1AlertActive := true, alertLevel := 1 }
    else
      { s with level1AlertCount := s.level1AlertCount + 1 }
  else
    { s with level1AlertCount := 0, level1AlertActive := false }

/-- LEVEL 2 block of `checkFireAlertLevels` (keeps level 1 active on
activation ticks). -/
def level2Block (fi : Nat) (s : FireState) : FireState :=
  if 3 ≤ fi then
    if 2 ≤ s.level2AlertCount + 1 then
      { s with level2AlertCount := s.level2AlertCount + 1,
               level2AlertActive := true, alertLevel := 2, level1AlertActive := true }
    else
      { s with level2AlertCount := s.level2AlertCount + 1 }
  else
    { s with level2AlertCount := 0, level2AlertActive := false }

/-- LEVEL 3 block of `checkFireAlertLevels` (keeps levels 1 and 2 active on
activation ticks). -/
def level3Block (fi : Nat) (s : FireState) : FireState :=
  if 4 ≤ fi then
    if 1 ≤ s.level3AlertCount + 1 then
      { s with level3AlertCount := s.level3AlertCount + 1,
               level3AlertActive := true, alertLevel := 3,
               level1AlertActive := true, level2AlertActive := true }
    else
      { s with level3AlertCount := s.level3AlertCount + 1 }
  else
    { s with level3AlertCount := 0, level3AlertActive := false }

/-- Final reset of `checkFireAlertLevels`: all flags and the level clear
together when fewer than 2 indicators are active. -/
def globalResetBlock (fi : Nat) (s : FireState) : FireState :=
  if fi < 2 then
    { s with level1AlertActive := false, level2AlertActive := false,
             level3AlertActive := false, alertLevel := 0 }
  else s

/-- `checkFireAlertLevels`: indicator evaluation plus the four blocks in
source order. -/
def checkFireAlertLevels (s : FireState) (inp : FireInput) : FireState :=
  globalResetBlock (countIndicators (evaluateFireIndicators inp))
    (level3Block (countIndicators (evaluateFireIndicators inp))
      (level2Block (countIndicators (evaluateFireIndicators inp))
        (level1Block (evaluateFireIndicators inp)
          (countIndicators (evaluateFireIndicators inp))
          { s with fireIndicators := countIndicators (evaluateFireIndicators inp) })))

def fireRun (l : List FireInput) : FireState :=
  l.foldl checkFireAlertLevels initFireState

/-- Concrete tick with temperature, humidity, MQ-2 and MQ-7 all in the fire
band and no smoke: 4 of 5 indicators active. -/
def escalateInput : FireInput :=
  { temperature := 50, humidity := 10, mq2_raw := 100, mq7_raw := 100,
    smokeDetected := false }

/-- Concrete tick with only temperature and humidity in the fire band:
2 of 5 indicators active. -/
def twoInput : FireInput :=
  { temperature := 50, humidity := 10, mq2_raw := 0, mq7_raw := 0,
    smokeDetected := false }

/-- Concrete tick with temperature, humidity and MQ-2 in the fire band:
3 of 5 indicators active. -/
def threeInput : FireInput :=
  { temperature := 50, humidity := 10, mq2_raw := 100, mq7_raw := 0,
    smokeDetected := false }

/-- Concrete tick with all 5 indicators active. -/
def allIndicatorsInput : FireInput :=
  { temperature := 50, humidity := 10, mq2_raw := 100, mq7_raw := 100,
    smokeDetected := true }

end Fire

namespace Water

def PH_OPTIMAL_MIN : ℚ := 13/2
def PH_OPTIMAL_MAX : ℚ := 17/2
def PH_CRITICAL_MIN : ℚ := 4
def PH_CRITICAL_MAX : ℚ := 10
def TURBIDITY_NORMAL : ℚ := 5
def TURBIDITY_CRITICAL : ℚ := 20
def DO_OPTIMAL : ℚ := 7
def DO_CRITICAL : ℚ := 3
def CONDUCTIVITY_NORMAL : ℚ := 500
def CONDUCTIVITY_CRITICAL : ℚ := 2000
def BASELINE_READINGS : Nat := 32

/-- `calibratePH` (water firmware): identical two-point formula, clamped to
`[0, 14]`. -/
def calibratePH (rawValue : ℚ) : ℚ :=
  constrain (7 - (rawValue / ADC_MAX * (33/10) - 3/2) / ((2 - 3/2) / (4 - 7))) 0 14

/-- `calibrateTurbidity`: ratio scaling to `[0, 40]` NTU. -/
def calibrateTurbidity (rawValue : ℚ) : ℚ :=
  constrain (rawValue / ADC_MAX * 40) 0 40

/-- `calibrateDissolvedOxygen`: ratio scaling to 0-15 mg/L with linear
temperature compensation, clamped to `[0, 15]`. -/
def calibrateDissolvedOxygen (rawValue temperature : ℚ) : ℚ :=
  constrain (rawValue / ADC_MAX * (33/10) / (33/10) * 15 *
    (1 + 236/10000 * (temperature - 20))) 0 15

/-- `calibrateConductivity`: ratio scaling to `[0, 3000]` uS/cm. -/
def calibrateConductivity (rawValue : ℚ) : ℚ :=
  constrain (rawValue / ADC_MAX * (33/10) / (33/10) * 3000) 0 3000

structure WaterInput where
  airTemp : ℚ
  humidity : ℚ
  ph_raw : ℚ
  turbidity_raw : ℚ
  do_raw : ℚ
  conductivity_raw : ℚ
deriving DecidableEq

/-- All mutable globals of the water firmware feeding the decision logic:
baseline characterization arrays and averages, alert counters and flags,
and the `currentData` record. -/
structure WaterState where
  baselineCounter : Nat
  baselineComplete : Bool
  ph_baseline : List ℚ
  turbidity_baseline : List ℚ
  do_baseline : List ℚ
  conductivity_baseline : List ℚ
  ph_baseline_avg : ℚ
  turbidity_baseline_avg : ℚ
  do_baseline_avg : ℚ
  conductivity_baseline_avg : ℚ
  cautionAlertCount : Nat
  criticalAlertCount : Nat
  contaminationDetectionCount : Nat
  cautionAlertActive : Bool
  criticalAlertActive : Bool
  contaminationDetected : Bool
  cur_pH : ℚ
  cur_turbidity : ℚ
  cur_dissolvedOxygen : ℚ
  cur_conductivity : ℚ
  cur_waterTemp : ℚ
  cur_airTemp : ℚ
  cur_humidity : ℚ
  cur_wqi : ℚ
  cur_qualityRating : Nat
  cur_alertLevel : Nat
deriving DecidableEq

def initWaterState : WaterState :=
  { baselineCounter := 0, baselineComplete := false
    ph_baseline := List.replicate 32 0
    turbidity_baseline := List.replicate 32 0
    do_baseline := List.replicate 32 0
    conductivity_baseline := List.replicate 32 0
    ph_baseline_avg := 7, turbidity_baseline_avg := 2
    do_baseline_avg := 7, conductivity_baseline_avg := 300
    cautionAlertCount := 0, criticalAlertCount := 0
    contaminationDetectionCount := 0
    cautionAlertActive := false, criticalAlertActive := false
    contaminationDetected := false
    cur_pH := 0, cur_turbidity := 0, cur_dissolvedOxygen := 0
    cur_conductivity := 0, cur_waterTemp := 0, cur_airTemp := 0
    cur_humidity := 0, cur_wqi := 0, cur_qualityRating := 0, cur_alertLevel := 0 }

/-- `readSensors` (water): NaN DHT read returns early; otherwise calibrate
all four parameters (water temperature is ambient + 2) into `currentData`. -/
def readSensors (s : WaterState) (inp : Option WaterInput) : WaterState :=
  match inp with
  | none => s
  | some i =>
      { s with
        cur_pH := calibratePH i.ph_raw
        cur_turbidity := calibrateTurbidity i.turbidity_raw
        cur_dissolvedOxygen := calibrateDissolvedOxygen i.do_raw (i.airTemp + 2)
        cur_conductivity := calibrateConductivity i.conductivity_raw
        cur_waterTemp := i.airTemp + 2
        cur_airTemp := i.airTemp
        cur_humidity := i.humidity }

/-- First half of `updateBaselineCharacterization`: store the current
readings at index `baselineCounter` and increment the counter. -/
def storeBaselineSample (s : WaterState) : WaterState :=
  { s with
    ph_baseline := s.ph_baseline.set s.baselineCounter s.cur_pH
    turbidity_baseline := s.turbidity_baseline.set s.baselineCounter s.cur_turbidity
    do_baseline := s.do_baseline.set s.baselineCounter s.cur_dissolvedOxygen
    conductivity_baseline := s.conductivity_baseline.set s.baselineCounter s.cur_conductivity
    baselineCounter := s.baselineCounter + 1 }

/-- Second half of `updateBaselineCharacterization`: once 32 readings are
stored, freeze the averages and mark the baseline complete. -/
def finalizeBaseline (s : WaterState) : WaterState :=
  if BASELINE_READINGS ≤ s.baselineCounter then
    { s with
      ph_baseline_avg := s.ph_baseline.sum / (BASELINE_READINGS : ℚ)
      turbidity_baseline_avg := s.turbidity_baseline.sum / (BASELINE_READINGS : ℚ)
      do_baseline_avg := s.do_baseline.sum / (BASELINE_READINGS : ℚ)
      conductivity_baseline_avg := s.conductivity_baseline.sum / (BASELINE_READINGS : ℚ)
      baselineComplete := true }
  else s

/-- `updateBaselineCharacterization`: no-op once complete, otherwise store
and possibly finalize. -/
def updateBaselineCharacterization (s : WaterState) : WaterState :=
  if s.baselineComplete then s else finalizeBaseline (storeBaselineSample s)

structure QualityIndicators where
  ph_abnormal : Bool
  turbidity_high : Bool
  do_low : Bool
  conductivity_high : Bool
deriving DecidableEq

/-- `evaluateQualityIndicators`: threshold the current calibrated values. -/
def evaluateQualityIndicators (s : WaterState) : QualityIndicators :=
  { ph_abnormal := decide (s.cur_pH < PH_OPTIMAL_MIN ∨ s.cur_pH > PH_OPTIMAL_MAX)
    turbidity_high := decide (s.cur_turbidity > TURBIDITY_NORMAL)
    do_low := decide (s.cur_dissolvedOxygen < DO_OPTIMAL)
    conductivity_high := decide (s.cur_conductivity > CONDUCTIVITY_NORMAL) }

def activeIndicatorCount (ind : QualityIndicators) : Nat :=
  (if ind.ph_abnormal then 1 else 0) + (if ind.turbidity_high then 1 else 0) +
    (if ind.do_low then 1 else 0) + (if ind.conductivity_high then 1 else 0)

/-- The critical-band condition of `checkContaminationEvent`. -/
def criticalCondition (s : WaterState) : Bool :=
  decide (s.cur_pH < PH_CRITICAL_MIN ∨ s.cur_pH > PH_CRITICAL_MAX ∨
    s.cur_turbidity > TURBIDITY_CRITICAL ∨ s.cur_dissolvedOxygen < DO_CRITICAL ∨
    s.cur_conductivity > CONDUCTIVITY_CRITICAL)

/-- CAUTION block of `checkContaminationEvent`. -/
def cautionBlock (ai : Nat) (s : WaterState) : WaterState :=
  if 1 ≤ ai then
    if 2 ≤ s.cautionAlertCount + 1 then
      { s with cautionAlertCount := s.cautionAlertCount + 1,
               cautionAlertActive := true, cur_alertLevel := 1,
               contaminationDetectionCount := s.contaminationDetectionCount + 1 }
    else
      { s with cautionAlertCount := s.cautionAlertCount + 1 }
  else
    { s with cautionAlertCount := 0, cautionAlertActive := false }

/-- CRITICAL block of `checkContaminationEvent`. -/
def criticalBlock (s : WaterState) : WaterState :=
  if criticalCondition s = true then
    if 1 ≤ s.criticalAlertCount + 1 then
      { s with criticalAlertCount := s.criticalAlertCount + 1,
               criticalAlertActive := true, cur_alertLevel := 2,
               contaminationDetected := true }
    else
      { s with criticalAlertCount := s.criticalAlertCount + 1 }
  else
    { s with criticalAlertCount := 0, criticalAlertActive := false,
             contaminationDetected := false }

/-- Final block of `checkContaminationEvent`: clear flags and the level when
no indicator is active. -/
def noAlertBlock (ai : Nat) (s : WaterState) : WaterState :=
  if ai = 0 then
    { s with cautionAlertActive := false, criticalAlertActive := false,
             cur_alertLevel := 0 }
  else s

/-- `checkContaminationEvent`: early return during baseline characterization,
then indicator evaluation and the three alert blocks in source order. -/
def checkContaminationEvent (s : WaterState) : WaterState :=
  if s.baselineComplete = false then s
  else
    noAlertBlock (activeIndicatorCount (evaluateQualityIndicators s))
      (criticalBlock
        (cautionBlock (activeIndicatorCount (evaluateQualityIndicators s)) s))

/-- `calculateWaterQualityIndex`: weighted composite score and rating bucket. -/
def calculateWaterQualityIndex (s : WaterState) : WaterState :=
  { s with
    cur_wqi :=
      (4 * constrain (100 - |s.cur_pH - 7| * 20) 0 100 +
        5 * constrain (100 - s.cur_turbidity * 5) 0 100 +
        5 * constrain (s.cur_dissolvedOxygen / DO_OPTIMAL * 100) 0 100 +
        3 * constrain (100 - s.cur_conductivity / 30) 0 100) / (4 + 5 + 5 + 3)
    cur_qualityRating :=
      if (4 * constrain (100 - |s.cur_pH - 7| * 20) 0 100 +
          5 * constrain (100 - s.cur_turbidity * 5) 0 100 +
          5 * constrain (s.cur_dissolvedOxygen / DO_OPTIMAL * 100) 0 100 +
          3 * constrain (100 - s.cur_conductivity / 30) 0 100) / (4 + 5 + 5 + 3) ≥ 90
      then 0
      else if (4 * constrain (100 - |s.cur_pH - 7| * 20) 0 100 +
          5 * constrain (100 - s.cur_turbidity * 5) 0 100 +
          5 * constrain (s.cur_dissolvedOxygen / DO_OPTIMAL * 100) 0 100 +
          3 * constrain (100 - s.cur_conductivity / 30) 0 100) / (4 + 5 + 5 + 3) ≥ 70
      then 1
      else if (4 * constrain (100 - |s.cur_pH - 7| * 20) 0 100 +
          5 * constrain (100 - s.cur_turbidity * 5) 0 100 +
          5 * constrain (s.cur_dissolvedOxygen / DO_OPTIMAL * 100) 0 100 +
          3 * constrain (100 - s.cur_conductivity / 30) 0 100) / (4 + 5 + 5 + 3) ≥ 50
      then 2
      else if (4 * constrain (100 - |s.cur_pH - 7| * 20) 0 100 +
          5 * constrain (100 - s.cur_turbidity * 5) 0 100 +
          5 * constrain (s.cur_dissolvedOxygen / DO_OPTIMAL * 100) 0 100 +
          3 * constrain (100 - s.cur_conductivity / 30) 0 100) / (4 + 5 + 5 + 3) ≥ 25
      then 3 else 4 }

/-- One sensor tick of the water `loop`: `readSensors` (which may skip on
NaN), then either the baseline characterization branch or the normal
evaluation branch. -/
def waterLoopTick (s : WaterState) (inp : Option WaterInput) : WaterState :=
  if (readSensors s inp).baselineComplete = false then
    updateBaselineCharacterization (readSensors s inp)
  else
    calculateWaterQualityIndex (checkContaminationEvent (readSensors s inp))

def waterRun (l : List (Option WaterInput)) : WaterState :=
  l.foldl waterLoopTick initWaterState

/-- One calibrated reading of the four monitored parameters, as pushed into
the baseline characterization tracker via `currentData`. -/
structure Reading where
  pH : ℚ
  turbidity : ℚ
  dissolvedOxygen : ℚ
  conductivity : ℚ
deriving DecidableEq

/-- Pushing one reading into the baseline tracker: set `currentData` and run
`updateBaselineCharacterization` (exactly what one baseline-phase tick does
to the tracker). -/
def baselinePush (s : WaterState) (v : Reading) : WaterState :=
  updateBaselineCharacterization
    { s with cur_pH := v.pH, cur_turbidity := v.turbidity,
             cur_dissolvedOxygen := v.dissolvedOxygen,
             cur_conductivity := v.conductivity }

def baselineRun (l : List Reading) : WaterState :=
  l.foldl baselinePush initWaterState

/-- Concrete water tick whose raw values all calibrate into critical bands
(pH raw 0 calibrates to 0, dissolved oxygen 0, conductivity 0). -/
def zeroRawInput : WaterInput := ⟨25, 50, 0, 0, 0, 0⟩

/-- Concrete calm reading used to exercise the baseline tracker. -/
def calmReading : Reading := ⟨6, 2, 7, 300⟩

end Water

/-! ### General facts about `constrain` -/

theorem constrain_bounds (x low high : ℚ) (h : low ≤ high) :
    low ≤ constrain x low high ∧ constrain x low high ≤ high := by
  unfold constrain
  split_ifs with h1 h2 <;> constructor <;> linarith

/-! ### Behaviour of the fire alert blocks -/

namespace Fire

theorem globalResetBlock_lt (fi : Nat) (s : FireState) (h : fi < 2) :
    globalResetBlock fi s =
      { s with level1AlertActive := false, level2AlertActive := false,
               level3AlertActive := false, alertLevel := 0 } := by
  unfold globalResetBlock; rw [if_pos h]

theorem globalResetBlock_ge (fi : Nat) (s : FireState) (h : 2 ≤ fi) :
    globalResetBlock fi s = s := by
  unfold globalResetBlock; rw [if_neg (by omega)]

theorem level3Block_lt (fi : Nat) (s : FireState) (h : fi < 4) :
    level3Block fi s = { s with level3AlertCount := 0, level3AlertActive := false } := by
  unfold level3Block; rw [if_neg (by omega)]

theorem level3Block_ge (fi : Nat) (s : FireState) (h : 4 ≤ fi) :
    level3Block fi s =
      { s with level3AlertCount := s.level3AlertCount + 1, level3AlertActive := true,
               alertLevel := 3, level1AlertActive := true, level2AlertActive := true } := by
  unfold level3Block; rw [if_pos h, if_pos (by omega)]

theorem level2Block_lt (fi : Nat) (s : FireState) (h : fi < 3) :
    level2Block fi s = { s with level2AlertCount := 0, level2AlertActive := false } := by
  unfold level2Block; rw [if_neg (by omega)]

theorem level2Block_ge (fi : Nat) (s : FireState) (h : 3 ≤ fi) :
    level2Block fi s =
      if 2 ≤ s.level2AlertCount + 1 then
        { s with level2AlertCount := s.level2AlertCount + 1,
                 level2AlertActive := true, alertLevel := 2, level1AlertActive := true }
      else
        { s with level2AlertCount := s.level2AlertCount + 1 } := by
  unfold level2Block; rw [if_pos h]

theorem level1Block_true (ind : FireIndicators) (fi : Nat) (s : FireState)
    (hd : (ind.tempHigh || ind.humidityLow || ind.mq2Elevated || ind.mq7Elevated) = true)
    (h2 : 2 ≤ fi) :
    level1Block ind fi s =
      if 5 ≤ s.level1AlertCount + 1 then
        { s with level1AlertCount := s.level1AlertCount + 1,
                 level1AlertActive := true, alertLevel := 1 }
      else
        { s with level1AlertCount := s.level1AlertCount + 1 } := by
  unfold level1Block; rw [if_pos ⟨hd, h2⟩]

/-- At least 2 of the 5 indicators active forces at least one of the 4
non-smoke indicators active (smoke alone contributes at most 1). -/
theorem countIndicators_two_disj (ind : FireIndicators)
    (h : 2 ≤ countIndicators ind) :
    (ind.tempHigh || ind.humidityLow || ind.mq2Elevated || ind.mq7Elevated) = true := by
  obtain ⟨a, b, c, d, e⟩ := ind
  revert a b c d e
  decide

theorem count_threeInput : countIndicators (evaluateFireIndicators threeInput) = 3 := by
  norm_num [countIndicators, evaluateFireIndicators, threeInput, TEMP_THRESHOLD,
    HUMIDITY_THRESHOLD, MQ2_BASELINE, MQ7_BASELINE, GAS_BASELINE_INCREASE]

theorem count_allIndicatorsInput :
    countIndicators (evaluateFireIndicators allIndicatorsInput) = 5 := by
  norm_num [countIndicators, evaluateFireIndicators, allIndicatorsInput, TEMP_THRESHOLD,
    HUMIDITY_THRESHOLD, MQ2_BASELINE, MQ7_BASELINE, GAS_BASELINE_INCREASE]

theorem count_twoInput : countIndicators (evaluateFireIndicators twoInput) = 2 := by
  norm_num [countIndicators, evaluateFireIndicators, twoInput, TEMP_THRESHOLD,
    HUMIDITY_THRESHOLD, MQ2_BASELINE, MQ7_BASELINE, GAS_BASELINE_INCREASE]

theorem count_escalateInput :
    countIndicators (evaluateFireIndicators escalateInput) = 4 := by
  norm_num [countIndicators, evaluateFireIndicators, escalateInput, TEMP_THRESHOLD,
    HUMIDITY_THRESHOLD, MQ2_BASELINE, MQ7_BASELINE, GAS_BASELINE_INCREASE]

theorem level1Block_false (ind : FireIndicators) (fi : Nat) (s : FireState)
    (h : fi < 2) :
    level1Block ind fi s = { s with level1AlertCount := 0, level1AlertActive := false } := by
  unfold level1Block
  rw [if_neg (fun hc => absurd hc.2 (by omega))]

theorem decide_le_or (t k : Nat) :
    (decide (t ≤ k) || decide (t ≤ k + 1)) = decide (t ≤ k + 1) := by
  by_cases h : t ≤ k
  · rw [decide_eq_true h, decide_eq_true (show t ≤ k + 1 by omega), Bool.true_or]
  · rw [decide_eq_false h, Bool.false_or]

/-- A tick falsifying tier 1's predicate (fewer than 2 indicators) resets
tier 1's counter and deactivates it immediately, from any state. -/
theorem fireStep_tier1_reset (s : FireState) (inp : FireInput)
    (h : countIndicators (evaluateFireIndicators inp) < 2) :
    (checkFireAlertLevels s inp).level1AlertCount = 0 ∧
    (checkFireAlertLevels s inp).level1AlertActive = false := by
  have h3 : countIndicators (evaluateFireIndicators inp) < 3 := by omega
  have h4 : countIndicators (evaluateFireIndicators inp) < 4 := by omega
  simp only [checkFireAlertLevels, level1Block_false _ _ _ h, level2Block_lt _ _ h3,
    level3Block_lt _ _ h4, globalResetBlock_lt _ _ h]
  exact ⟨by trivial, by trivial⟩

/-- A tick falsifying tier 2's predicate (fewer than 3 indicators) resets
tier 2's counter and deactivates it immediately, from any state. -/
theorem fireStep_tier2_reset (s : FireState) (inp : FireInput)
    (h : countIndicators (evaluateFireIndicators inp) < 3) :
    (checkFireAlertLevels s inp).level2AlertCount = 0 ∧
    (checkFireAlertLevels s inp).level2AlertActive = false := by
  have h4 : countIndicators (evaluateFireIndicators inp) < 4 := by omega
  simp only [checkFireAlertLevels, level2Block_lt _ _ h, level3Block_lt _ _ h4]
  by_cases h2 : countIndicators (evaluateFireIndicators inp) < 2
  · rw [globalResetBlock_lt _ _ h2]; exact ⟨rfl, rfl⟩
  · rw [globalResetBlock_ge _ _ (by omega)]; exact ⟨rfl, rfl⟩

/-- A tick falsifying tier 3's predicate (fewer than 4 indicators) resets
tier 3's counter and deactivates it immediately, from any state. -/
theorem fireStep_tier3_reset (s : FireState) (inp : FireInput)
    (h : countIndicators (evaluateFireIndicators inp) < 4) :
    (checkFireAlertLevels s inp).level3AlertCount = 0 ∧
    (checkFireAlertLevels s inp).level3AlertActive = false := by
  simp only [checkFireAlertLevels, level3Block_lt _ _ h]
  by_cases h2 : countIndicators (evaluateFireIndicators inp) < 2
  · rw [globalResetBlock_lt _ _ h2]; exact ⟨rfl, rfl⟩
  · rw [globalResetBlock_ge _ _ (by omega)]; exact ⟨rfl, rfl⟩

/-- A tick satisfying tier 1's predicate on which no higher tier fires
(2 or fewer than 3 indicators): tier 1's counter increments and tier 1 is
active exactly once the incremented counter has reached its threshold 5,
from any state. -/
theorem fireStep_tier1_qualify (s : FireState) (inp : FireInput)
    (h2 : 2 ≤ countIndicators (evaluateFireIndicators inp))
    (h3 : countIndicators (evaluateFireIndicators inp) < 3) :
    (checkFireAlertLevels s inp).level1AlertCount = s.level1AlertCount + 1 ∧
    (checkFireAlertLevels s inp).level1AlertActive =
      (s.level1AlertActive || decide (5 ≤ s.level1AlertCount + 1)) := by
  have h4 : countIndicators (evaluateFireIndicators inp) < 4 := by omega
  have hd := countIndicators_two_disj (evaluateFireIndicators inp) h2
  simp only [checkFireAlertLevels, globalResetBlock_ge _ _ h2, level3Block_lt _ _ h4,
    level2Block_lt _ _ h3, level1Block_true _ _ _ hd h2]
  by_cases h5 : 5 ≤ s.level1AlertCount + 1
  · rw [if_pos h5]; simp [h5]
  · rw [if_neg h5]; simp [h5]

/-- A tick satisfying tier 2's predicate on which tier 3 does not fire
(3 or fewer than 4 indicators): tier 2's counter increments and tier 2 is
active exactly once the incremented counter has reached its threshold 2,
from any state. -/
theorem fireStep_tier2_qualify (s : FireState) (inp : FireInput)
    (h3 : 3 ≤ countIndicators (evaluateFireIndicators inp))
    (h4 : countIndicators (evaluateFireIndicators inp) < 4) :
    (checkFireAlertLevels s inp).level2AlertCount = s.level2AlertCount + 1 ∧
    (checkFireAlertLevels s inp).level2AlertActive =
      (s.level2AlertActive || decide (2 ≤ s.level2AlertCount + 1)) := by
  have h2 : 2 ≤ countIndicators (evaluateFireIndicators inp) := by omega
  have hd := countIndicators_two_disj (evaluateFireIndicators inp) h2
  simp only [checkFireAlertLevels, globalResetBlock_ge _ _ h2, level3Block_lt _ _ h4,
    level2Block_ge _ _ h3, level1Block_true _ _ _ hd h2]
  by_cases h5 : 5 ≤ s.level1AlertCount + 1 <;>
    [rw [if_pos h5]; rw [if_neg h5]] <;>
    by_cases hc : 2 ≤ s.level2AlertCount + 1 <;>
    [rw [if_pos hc]; rw [if_neg hc]; rw [if_pos hc]; rw [if_neg hc]] <;>
    simp [hc]

/-- A tick satisfying tier 3's predicate (at least 4 indicators): tier 3's
counter increments and tier 3 is active at once (its threshold is 1), from
any state. -/
theorem fireStep_tier3_qualify (s : FireState) (inp : FireInput)
    (h : 4 ≤ countIndicators (evaluateFireIndicators inp)) :
    (checkFireAlertLevels s inp).level3AlertCount = s.level3AlertCount + 1 ∧
    (checkFireAlertLevels s inp).level3AlertActive = true := by
  have h2 : 2 ≤ countIndicators (evaluateFireIndicators inp) := by omega
  have h3 : 3 ≤ countIndicators (evaluateFireIndicators inp) := by omega
  have hd := countIndicators_two_disj (evaluateFireIndicators inp) h2
  simp only [checkFireAlertLevels, globalResetBlock_ge _ _ h2, level3Block_ge _ _ h,
    level2Block_ge _ _ h3, level1Block_true _ _ _ hd h2]
  by_cases h5 : 5 ≤ s.level1AlertCount + 1 <;>
    [rw [if_pos h5]; rw [if_neg h5]] <;>
    by_cases hc : 2 ≤ s.level2AlertCount + 1 <;>
    [rw [if_pos hc]; rw [if_neg hc]; rw [if_pos hc]; rw [if_neg hc]] <;>
    exact ⟨by trivial, by trivial⟩

/-- Along any sequence of ticks satisfying tier 1's predicate without
firing a higher tier, tier 1's counter counts the ticks and tier 1 is
active exactly from the tick where the counter reaches its threshold 5. -/
theorem fireRun_tier1_debounce : ∀ l : List FireInput,
    (∀ i ∈ l, 2 ≤ countIndicators (evaluateFireIndicators i) ∧
      countIndicators (evaluateFireIndicators i) < 3) →
    (fireRun l).level1AlertCount = l.length ∧
    (fireRun l).level1AlertActive = decide (5 ≤ l.length) := by
  intro l
  induction l using List.reverseRecOn with
  | nil => exact fun _ => ⟨rfl, rfl⟩
  | append_singleton xs x ih =>
      intro hall
      have hx := hall x (List.mem_append_right _ (List.mem_singleton_self x))
      obtain ⟨ic, ia⟩ := ih (fun i hi => hall i (List.mem_append_left _ hi))
      have hstep := fireStep_tier1_qualify (fireRun xs) x hx.1 hx.2
      have hrun : fireRun (xs ++ [x]) = checkFireAlertLevels (fireRun xs) x := by
        unfold fireRun
        rw [List.foldl_append, List.foldl_cons, List.foldl_nil]
      rw [hrun, List.length_append, List.length_singleton]
      refine ⟨by rw [hstep.1, ic], ?_⟩
      rw [hstep.2, ia]
      simp only [ic]
      exact decide_le_or 5 xs.length

/-- Along any sequence of ticks satisfying tier 2's predicate without
firing tier 3, tier 2's counter counts the ticks and tier 2 is active
exactly from the tick where the counter reaches its threshold 2. -/
theorem fireRun_tier2_debounce : ∀ l : List FireInput,
    (∀ i ∈ l, 3 ≤ countIndicators (evaluateFireIndicators i) ∧
      countIndicators (evaluateFireIndicators i) < 4) →
    (fireRun l).level2AlertCount = l.length ∧
    (fireRun l).level2AlertActive = decide (2 ≤ l.length) := by
  intro l
  induction l using List.reverseRecOn with
  | nil => exact fun _ => ⟨rfl, rfl⟩
  | append_singleton xs x ih =>
      intro hall
      have hx := hall x (List.mem_append_right _ (List.mem_singleton_self x))
      obtain ⟨ic, ia⟩ := ih (fun i hi => hall i (List.mem_append_left _ hi))
      have hstep := fireStep_tier2_qualify (fireRun xs) x hx.1 hx.2
      have hrun : fireRun (xs ++ [x]) = checkFireAlertLevels (fireRun xs) x := by
        unfold fireRun
        rw [List.foldl_append, List.foldl_cons, List.foldl_nil]
      rw [hrun, List.length_append, List.length_singleton]
      refine ⟨by rw [hstep.1, ic], ?_⟩
      rw [hstep.2, ia]
      simp only [ic]
      exact decide_le_or 2 xs.length

/-- Along any sequence of ticks satisfying tier 3's predicate, tier 3's
counter counts the ticks and tier 3 is active from the first tick (its
threshold is 1). -/
theorem fireRun_tier3_debounce : ∀ l : List FireInput,
    (∀ i ∈ l, 4 ≤ countIndicators (evaluateFireIndicators i)) →
    (fireRun l).level3AlertCount = l.length ∧
    (fireRun l).level3AlertActive = decide (1 ≤ l.length) := by
  intro l
  induction l using List.reverseRecOn with
  | nil => exact fun _ => ⟨rfl, rfl⟩
  | append_singleton xs x ih =>
      intro hall
      have hx := hall x (List.mem_append_right _ (List.mem_singleton_self x))
      obtain ⟨ic, _⟩ := ih (fun i hi => hall i (List.mem_append_left _ hi))
      have hstep := fireStep_tier3_qualify (fireRun xs) x hx
      have hrun : fireRun (xs ++ [x]) = checkFireAlertLevels (fireRun xs) x := by
        unfold fireRun
        rw [List.foldl_append, List.foldl_cons, List.foldl_nil]
      rw [hrun, List.length_append, List.length_singleton]
      refine ⟨by rw [hstep.1, ic], ?_⟩
      rw [hstep.2, decide_eq_true (show 1 ≤ xs.length + 1 by omega)]

/-- One tick with all 5 indicators active increments all three counters. -/
theorem step_allOn_counts (s : FireState) :
    (checkFireAlertLevels s allIndicatorsInput).level1AlertCount = s.level1AlertCount + 1 ∧
    (checkFireAlertLevels s allIndicatorsInput).level2AlertCount = s.level2AlertCount + 1 ∧
    (checkFireAlertLevels s allIndicatorsInput).level3AlertCount = s.level3AlertCount + 1 := by
  have h5 := count_allIndicatorsInput
  have hd := countIndicators_two_disj (evaluateFireIndicators allIndicatorsInput) (by omega)
  simp only [checkFireAlertLevels, h5]
  rw [globalResetBlock_ge _ _ (by omega), level3Block_ge _ _ (by omega),
    level2Block_ge _ _ (by omega), level1Block_true _ _ _ hd (by omega)]
  by_cases ha : 5 ≤ s.level1AlertCount + 1 <;>
    [rw [if_pos ha]; rw [if_neg ha]] <;>
    by_cases hb : 2 ≤ s.level2AlertCount + 1 <;>
    [rw [if_pos hb]; rw [if_neg hb]; rw [if_pos hb]; rw [if_neg hb]] <;>
    exact ⟨rfl, rfl, rfl⟩

/-- Feeding `n` consecutive all-indicator ticks from reset: every tier's
counter equals `n` (counters are not capped). -/
theorem fireRun_allOn_counts : ∀ n : Nat,
    (fireRun (List.replicate n allIndicatorsInput)).level1AlertCount = n ∧
    (fireRun (List.replicate n allIndicatorsInput)).level2AlertCount = n ∧
    (fireRun (List.replicate n allIndicatorsInput)).level3AlertCount = n := by
  intro n
  induction n with
  | zero => exact ⟨rfl, rfl, rfl⟩
  | succ k ih =>
      have hstep := step_allOn_counts (fireRun (List.replicate k allIndicatorsInput))
      rw [List.replicate_succ']
      simp only [fireRun, List.foldl_append, List.foldl_cons, List.foldl_nil] at hstep ih ⊢
      exact ⟨by rw [hstep.1, ih.1], by rw [hstep.2.1, ih.2.1], by rw [hstep.2.2, ih.2.2]⟩

end Fire

/-! ### Behaviour of the soil alert blocks and moving-average buffer -/

namespace Soil

theorem heatStressBlock_preserves (ft fh : ℚ) (s : SoilState) :
    (heatStressBlock ft fh s).lowMoistureCount = s.lowMoistureCount ∧
    (heatStressBlock ft fh s).irrigationAlertActive = s.irrigationAlertActive ∧
    (heatStressBlock ft fh s).moistureBuffer0 = s.moistureBuffer0 ∧
    (heatStressBlock ft fh s).moistureBuffer1 = s.moistureBuffer1 ∧
    (heatStressBlock ft fh s).bufferIndex = s.bufferIndex ∧
    (heatStressBlock ft fh s).cur_pH = s.cur_pH := by
  unfold heatStressBlock
  split_ifs <;> exact ⟨rfl, rfl, rfl, rfl, rfl, rfl⟩

theorem phImbalanceBlock_preserves (s : SoilState) :
    (phImbalanceBlock s).lowMoistureCount = s.lowMoistureCount ∧
    (phImbalanceBlock s).irrigationAlertActive = s.irrigationAlertActive ∧
    (phImbalanceBlock s).moistureBuffer0 = s.moistureBuffer0 ∧
    (phImbalanceBlock s).moistureBuffer1 = s.moistureBuffer1 ∧
    (phImbalanceBlock s).bufferIndex = s.bufferIndex ∧
    (phImbalanceBlock s).cur_pH = s.cur_pH := by
  unfold phImbalanceBlock
  split_ifs <;> exact ⟨rfl, rfl, rfl, rfl, rfl, rfl⟩

theorem lowMoistureBlock_preserves (fm : ℚ) (s : SoilState) :
    (lowMoistureBlock fm s).moistureBuffer0 = s.moistureBuffer0 ∧
    (lowMoistureBlock fm s).moistureBuffer1 = s.moistureBuffer1 ∧
    (lowMoistureBlock fm s).bufferIndex = s.bufferIndex ∧
    (lowMoistureBlock fm s).cur_pH = s.cur_pH := by
  unfold lowMoistureBlock
  split_ifs <;> exact ⟨rfl, rfl, rfl, rfl⟩

/-- The low-moisture fields of `checkAlertConditions` are exactly those
produced by its first block. -/
theorem checkAlert_low_fields (s : SoilState) :
    (checkAlertConditions s).lowMoistureCount =
      (lowMoistureBlock (getFilteredMoisture s) s).lowMoistureCount ∧
    (checkAlertConditions s).irrigationAlertActive =
      (lowMoistureBlock (getFilteredMoisture s) s).irrigationAlertActive := by
  unfold checkAlertConditions
  constructor
  · rw [(phImbalanceBlock_preserves _).1, (heatStressBlock_preserves _ _ _).1]
  · rw [(phImbalanceBlock_preserves _).2.1, (heatStressBlock_preserves _ _ _).2.1]

theorem checkAlert_buffers (s : SoilState) :
    (checkAlertConditions s).moistureBuffer0 = s.moistureBuffer0 ∧
    (checkAlertConditions s).moistureBuffer1 = s.moistureBuffer1 ∧
    (checkAlertConditions s).bufferIndex = s.bufferIndex ∧
    (checkAlertConditions s).cur_pH = s.cur_pH := by
  unfold checkAlertConditions
  refine ⟨?_, ?_, ?_, ?_⟩
  · rw [(phImbalanceBlock_preserves _).2.2.1, (heatStressBlock_preserves _ _ _).2.2.1,
      (lowMoistureBlock_preserves _ _).1]
  · rw [(phImbalanceBlock_preserves _).2.2.2.1, (heatStressBlock_preserves _ _ _).2.2.2.1,
      (lowMoistureBlock_preserves _ _).2.1]
  · rw [(phImbalanceBlock_preserves _).2.2.2.2.1, (heatStressBlock_preserves _ _ _).2.2.2.2.1,
      (lowMoistureBlock_preserves _ _).2.2.1]
  · rw [(phImbalanceBlock_preserves _).2.2.2.2.2, (heatStressBlock_preserves _ _ _).2.2.2.2.2,
      (lowMoistureBlock_preserves _ _).2.2.2]

theorem getFilteredMoisture_checkAlert (s : SoilState) :
    getFilteredMoisture (checkAlertConditions s) = getFilteredMoisture s := by
  unfold getFilteredMoisture
  rw [(checkAlert_buffers s).1, (checkAlert_buffers s).2.1]

theorem lowMoistureBlock_low (fm : ℚ) (s : SoilState)
    (h : fm < MOISTURE_THRESHOLD_LOW) :
    lowMoistureBlock fm s =
      if 3 ≤ s.lowMoistureCount + 1 then
        { s with lowMoistureCount := s.lowMoistureCount + 1,
                 irrigationAlertActive := true, cur_irrigationAlert := true }
      else
        { s with lowMoistureCount := s.lowMoistureCount + 1 } := by
  unfold lowMoistureBlock; rw [if_pos h]

theorem lowMoistureBlock_high (fm : ℚ) (s : SoilState)
    (h : fm > MOISTURE_THRESHOLD_HIGH) :
    lowMoistureBlock fm s =
      { s with lowMoistureCount := 0, irrigationAlertActive := false,
               cur_irrigationAlert := false } := by
  unfold lowMoistureBlock
  rw [if_neg (by unfold MOISTURE_THRESHOLD_LOW MOISTURE_THRESHOLD_HIGH at *; linarith),
    if_pos h]

theorem lowMoistureBlock_band (fm : ℚ) (s : SoilState)
    (h1 : ¬ fm < MOISTURE_THRESHOLD_LOW) (h2 : ¬ fm > MOISTURE_THRESHOLD_HIGH) :
    lowMoistureBlock fm s = { s with lowMoistureCount := s.lowMoistureCount + 1 } := by
  unfold lowMoistureBlock; rw [if_neg h1, if_neg h2]

/-- Buffer contents after one successful (non-NaN) sensor read. -/
theorem readSensors_some_buffer (s : SoilState) (i : SoilInput) :
    (readSensors s (some i)).moistureBuffer0 =
      (if s.bufferIndex = 0 then calibrateMoisture i.moistureRaw else s.moistureBuffer0) ∧
    (readSensors s (some i)).moistureBuffer1 =
      (if s.bufferIndex = 0 then s.moistureBuffer1 else calibrateMoisture i.moistureRaw) ∧
    (readSensors s (some i)).bufferIndex = (s.bufferIndex + 1) % 2 := by
  unfold readSensors updateMovingAverage
  split_ifs with h <;> exact ⟨rfl, rfl, rfl⟩

theorem soilSensorTick_some_buffer (s : SoilState) (i : SoilInput) :
    (soilSensorTick s (some i)).moistureBuffer0 =
      (if s.bufferIndex = 0 then calibrateMoisture i.moistureRaw else s.moistureBuffer0) ∧
    (soilSensorTick s (some i)).moistureBuffer1 =
      (if s.bufferIndex = 0 then s.moistureBuffer1 else calibrateMoisture i.moistureRaw) ∧
    (soilSensorTick s (some i)).bufferIndex = (s.bufferIndex + 1) % 2 := by
  unfold soilSensorTick
  refine ⟨?_, ?_, ?_⟩
  · rw [(checkAlert_buffers _).1, (readSensors_some_buffer s i).1]
  · rw [(checkAlert_buffers _).2.1, (readSensors_some_buffer s i).2.1]
  · rw [(checkAlert_buffers _).2.2.1, (readSensors_some_buffer s i).2.2]

/-- After two consecutive successful reads, the filter holds exactly those
two calibrated values (circular overwrite). -/
theorem two_pushes_filtered (s : SoilState) (h : s.bufferIndex < 2) (a b : SoilInput) :
    getFilteredMoisture (soilSensorTick (soilSensorTick s (some a)) (some b)) =
      (calibrateMoisture a.moistureRaw + calibrateMoisture b.moistureRaw) / 2 := by
  obtain ⟨ha1, ha2, ha3⟩ := soilSensorTick_some_buffer s a
  have hb := soilSensorTick_some_buffer (soilSensorTick s (some a)) b
  unfold getFilteredMoisture
  rw [hb.1, hb.2.1, ha3]
  have hcase : s.bufferIndex = 0 ∨ s.bufferIndex = 1 := by omega
  rcases hcase with hi | hi
  · rw [hi] at ha1 ha2 ⊢
    norm_num at ha1 ha2 ⊢
    rw [ha1]
  · rw [hi] at ha1 ha2 ⊢
    norm_num at ha1 ha2 ⊢
    rw [ha2]
    ring

theorem soilSensorTick_index (s : SoilState) (inp : Option SoilInput)
    (h : s.bufferIndex < 2) : (soilSensorTick s inp).bufferIndex < 2 := by
  cases inp with
  | none =>
      unfold soilSensorTick readSensors
      rw [(checkAlert_buffers s).2.2.1]; exact h
  | some i =>
      rw [(soilSensorTick_some_buffer s i).2.2]
      exact Nat.mod_lt _ (by norm_num)

theorem soilRun_index (l : List (Option SoilInput)) : (soilRun l).bufferIndex < 2 := by
  have main : ∀ (m : List (Option SoilInput)) (s : SoilState), s.bufferIndex < 2 →
      (m.foldl soilSensorTick s).bufferIndex < 2 := by
    intro m
    induction m with
    | nil => exact fun s h => h
    | cons x xs ih => exact fun s h => ih _ (soilSensorTick_index s x h)
  exact main l initSoilState (by norm_num [initSoilState])

end Soil

/-! ### Behaviour of the water contamination blocks and the alert-level invariant -/

namespace Water

theorem cautionBlock_zero (ai : Nat) (s : WaterState) (h : ¬ 1 ≤ ai) :
    cautionBlock ai s = { s with cautionAlertCount := 0, cautionAlertActive := false } := by
  unfold cautionBlock; rw [if_neg h]

theorem cautionBlock_pos (ai : Nat) (s : WaterState) (h : 1 ≤ ai) :
    cautionBlock ai s =
      if 2 ≤ s.cautionAlertCount + 1 then
        { s with cautionAlertCount := s.cautionAlertCount + 1, cautionAlertActive := true,
                 cur_alertLevel := 1,
                 contaminationDetectionCount := s.contaminationDetectionCount + 1 }
      else { s with cautionAlertCount := s.cautionAlertCount + 1 } := by
  unfold cautionBlock; rw [if_pos h]

theorem criticalBlock_true (s : WaterState) (h : criticalCondition s = true) :
    criticalBlock s =
      { s with criticalAlertCount := s.criticalAlertCount + 1, criticalAlertActive := true,
               cur_alertLevel := 2, contaminationDetected := true } := by
  unfold criticalBlock; rw [if_pos h, if_pos (by omega)]

theorem criticalBlock_false (s : WaterState) (h : ¬ criticalCondition s = true) :
    criticalBlock s =
      { s with criticalAlertCount := 0, criticalAlertActive := false,
               contaminationDetected := false } := by
  unfold criticalBlock; rw [if_neg h]

theorem criticalCondition_cautionBlock (ai : Nat) (s : WaterState) :
    criticalCondition (cautionBlock ai s) = criticalCondition s := by
  unfold cautionBlock; split_ifs <;> rfl

theorem noAlertBlock_zero (ai : Nat) (s : WaterState) (h : ai = 0) :
    noAlertBlock ai s =
      { s with cautionAlertActive := false, criticalAlertActive := false,
               cur_alertLevel := 0 } := by
  unfold noAlertBlock; rw [if_pos h]

theorem noAlertBlock_pos (ai : Nat) (s : WaterState) (h : ¬ ai = 0) :
    noAlertBlock ai s = s := by
  unfold noAlertBlock; rw [if_neg h]

/-- One application of `checkContaminationEvent` preserves the relationship
between `alertLevel` and the two alert flags. -/
theorem contamination_levelOk (s : WaterState)
    (h1 : s.cur_alertLevel =
      if s.criticalAlertActive = true then 2
      else if s.cautionAlertActive = true then 1 else 0)
    (h2 : s.cautionAlertCount = 0 →
      s.cautionAlertActive = false ∧ s.criticalAlertActive = false ∧
      s.cur_alertLevel = 0) :
    ((checkContaminationEvent s).cur_alertLevel =
      if (checkContaminationEvent s).criticalAlertActive = true then 2
      else if (checkContaminationEvent s).cautionAlertActive = true then 1 else 0) ∧
    ((checkContaminationEvent s).cautionAlertCount = 0 →
      (checkContaminationEvent s).cautionAlertActive = false ∧
      (checkContaminationEvent s).criticalAlertActive = false ∧
      (checkContaminationEvent s).cur_alertLevel = 0) := by
  unfold checkContaminationEvent
  by_cases hb : s.baselineComplete = false
  · rw [if_pos hb]; exact ⟨h1, h2⟩
  · rw [if_neg hb]
    by_cases hai : activeIndicatorCount (evaluateQualityIndicators s) = 0
    · rw [noAlertBlock_zero _ _ hai]
      exact ⟨by simp, fun _ => ⟨rfl, rfl, rfl⟩⟩
    · rw [noAlertBlock_pos _ _ hai]
      have hca := cautionBlock_pos (activeIndicatorCount (evaluateQualityIndicators s)) s
        (by omega)
      by_cases hcs : criticalCondition s = true
      · have hcs2 : criticalCondition
            (cautionBlock (activeIndicatorCount (evaluateQualityIndicators s)) s) = true := by
          rw [criticalCondition_cautionBlock]; exact hcs
        rw [criticalBlock_true _ hcs2]
        refine ⟨by simp, ?_⟩
        rw [hca]
        split_ifs <;> intro hzero <;> exact absurd hzero (by simp)
      · have hcs2 : ¬ criticalCondition
            (cautionBlock (activeIndicatorCount (evaluateQualityIndicators s)) s) = true := by
          rw [criticalCondition_cautionBlock]; exact hcs
        rw [criticalBlock_false _ hcs2, hca]
        by_cases hcc : 2 ≤ s.cautionAlertCount + 1
        · rw [if_pos hcc]
          exact ⟨by simp, fun hzero => absurd hzero (by simp)⟩
        · rw [if_neg hcc]
          have hcc0 : s.cautionAlertCount = 0 := by omega
          obtain ⟨hca0, hcr0, hl0⟩ := h2 hcc0
          refine ⟨?_, fun hzero => absurd hzero (by simp)⟩
          simp only [hl0, hca0]
          simp

end Water

namespace Water

theorem readSensors_alert_fields (s : WaterState) (inp : Option WaterInput) :
    (readSensors s inp).cur_alertLevel = s.cur_alertLevel ∧
    (readSensors s inp).cautionAlertActive = s.cautionAlertActive ∧
    (readSensors s inp).criticalAlertActive = s.criticalAlertActive ∧
    (readSensors s inp).cautionAlertCount = s.cautionAlertCount ∧
    (readSensors s inp).baselineComplete = s.baselineComplete ∧
    (readSensors s inp).baselineCounter = s.baselineCounter ∧
    (readSensors s inp).cur_wqi = s.cur_wqi ∧
    (readSensors s inp).cur_qualityRating = s.cur_qualityRating := by
  cases inp <;> exact ⟨rfl, rfl, rfl, rfl, rfl, rfl, rfl, rfl⟩

theorem updateBaseline_alert_fields (s : WaterState) :
    (updateBaselineCharacterization s).cur_alertLevel = s.cur_alertLevel ∧
    (updateBaselineCharacterization s).cautionAlertActive = s.cautionAlertActive ∧
    (updateBaselineCharacterization s).criticalAlertActive = s.criticalAlertActive ∧
    (updateBaselineCharacterization s).cautionAlertCount = s.cautionAlertCount ∧
    (updateBaselineCharacterization s).cur_wqi = s.cur_wqi ∧
    (updateBaselineCharacterization s).cur_qualityRating = s.cur_qualityRating := by
  unfold updateBaselineCharacterization finalizeBaseline storeBaselineSample
  split_ifs <;> exact ⟨rfl, rfl, rfl, rfl, rfl, rfl⟩

theorem wqi_alert_fields (s : WaterState) :
    (calculateWaterQualityIndex s).cur_alertLevel = s.cur_alertLevel ∧
    (calculateWaterQualityIndex s).cautionAlertActive = s.cautionAlertActive ∧
    (calculateWaterQualityIndex s).criticalAlertActive = s.criticalAlertActive ∧
    (calculateWaterQualityIndex s).cautionAlertCount = s.cautionAlertCount := by
  exact ⟨rfl, rfl, rfl, rfl⟩

/-- One loop tick preserves the alert-level / flag relationship. -/
theorem tick_levelOk (s : WaterState) (inp : Option WaterInput)
    (h1 : s.cur_alertLevel =
      if s.criticalAlertActive = true then 2
      else if s.cautionAlertActive = true then 1 else 0)
    (h2 : s.cautionAlertCount = 0 →
      s.cautionAlertActive = false ∧ s.criticalAlertActive = false ∧
      s.cur_alertLevel = 0) :
    ((waterLoopTick s inp).cur_alertLevel =
      if (waterLoopTick s inp).criticalAlertActive = true then 2
      else if (waterLoopTick s inp).cautionAlertActive = true then 1 else 0) ∧
    ((waterLoopTick s inp).cautionAlertCount = 0 →
      (waterLoopTick s inp).cautionAlertActive = false ∧
      (waterLoopTick s inp).criticalAlertActive = false ∧
      (waterLoopTick s inp).cur_alertLevel = 0) := by
  have hr := readSensors_alert_fields s inp
  have h1r : (readSensors s inp).cur_alertLevel =
      if (readSensors s inp).criticalAlertActive = true then 2
      else if (readSensors s inp).cautionAlertActive = true then 1 else 0 := by
    rw [hr.1, hr.2.2.1, hr.2.1]; exact h1
  have h2r : (readSensors s inp).cautionAlertCount = 0 →
      (readSensors s inp).cautionAlertActive = false ∧
      (readSensors s inp).criticalAlertActive = false ∧
      (readSensors s inp).cur_alertLevel = 0 := by
    rw [hr.1, hr.2.2.1, hr.2.1, hr.2.2.2.1]; exact h2
  unfold waterLoopTick
  by_cases hc : (readSensors s inp).baselineComplete = false
  · rw [if_pos hc]
    have hu := updateBaseline_alert_fields (readSensors s inp)
    rw [hu.1, hu.2.1, hu.2.2.1, hu.2.2.2.1]
    exact ⟨h1r, h2r⟩
  · rw [if_neg hc]
    have hcont := contamination_levelOk (readSensors s inp) h1r h2r
    have hw := wqi_alert_fields (checkContaminationEvent (readSensors s inp))
    rw [hw.1, hw.2.1, hw.2.2.1, hw.2.2.2]
    exact hcont

/-- Every reachable water state satisfies the alert-level / flag
relationship. -/
theorem waterRun_levelOk (l : List (Option WaterInput)) :
    ((waterRun l).cur_alertLevel =
      if (waterRun l).criticalAlertActive = true then 2
      else if (waterRun l).cautionAlertActive = true then 1 else 0) ∧
    ((waterRun l).cautionAlertCount = 0 →
      (waterRun l).cautionAlertActive = false ∧
      (waterRun l).criticalAlertActive = false ∧
      (waterRun l).cur_alertLevel = 0) := by
  have main : ∀ (m : List (Option WaterInput)) (s : WaterState),
      (s.cur_alertLevel =
        if s.criticalAlertActive = true then 2
        else if s.cautionAlertActive = true then 1 else 0) →
      (s.cautionAlertCount = 0 →
        s.cautionAlertActive = false ∧ s.criticalAlertActive = false ∧
        s.cur_alertLevel = 0) →
      (((m.foldl waterLoopTick s).cur_alertLevel =
        if (m.foldl waterLoopTick s).criticalAlertActive = true then 2
        else if (m.foldl waterLoopTick s).cautionAlertActive = true then 1 else 0) ∧
      ((m.foldl waterLoopTick s).cautionAlertCount = 0 →
        (m.foldl waterLoopTick s).cautionAlertActive = false ∧
        (m.foldl waterLoopTick s).criticalAlertActive = false ∧
        (m.foldl waterLoopTick s).cur_alertLevel = 0)) := by
    intro m
    induction m with
    | nil => exact fun s hx hy => ⟨hx, hy⟩
    | cons x xs ih =>
        intro s hx hy
        have hstep := tick_levelOk s x hx hy
        exact ih _ hstep.1 hstep.2
  exact main l initWaterState (by simp [initWaterState]) (fun _ => ⟨rfl, rfl, rfl⟩)

end Water

/-! ### Baseline characterization -/

theorem set_append_cons (l t : List ℚ) (y x : ℚ) :
    (l ++ y :: t).set l.length x = l ++ x :: t := by
  induction l with
  | nil => rfl
  | cons hd tl ih => simp [List.set, ih]

namespace Water

theorem baselinePush_counter (s : WaterState) (v : Reading) :
    (baselinePush s v).baselineCounter =
      (if s.baselineComplete then s.baselineCounter else s.baselineCounter + 1) := by
  unfold baselinePush updateBaselineCharacterization finalizeBaseline storeBaselineSample
  split_ifs <;> rfl

/-- State of the baseline tracker after pushing at most 32 readings. -/
theorem baselineRun_spec : ∀ vs : List Reading, vs.length ≤ 32 →
    (baselineRun vs).baselineCounter = vs.length ∧
    (baselineRun vs).baselineComplete = decide (vs.length = 32) ∧
    (baselineRun vs).ph_baseline =
      vs.map Reading.pH ++ List.replicate (32 - vs.length) 0 ∧
    (baselineRun vs).turbidity_baseline =
      vs.map Reading.turbidity ++ List.replicate (32 - vs.length) 0 ∧
    (baselineRun vs).do_baseline =
      vs.map Reading.dissolvedOxygen ++ List.replicate (32 - vs.length) 0 ∧
    (baselineRun vs).conductivity_baseline =
      vs.map Reading.conductivity ++ List.replicate (32 - vs.length) 0 ∧
    (vs.length = 32 →
      (baselineRun vs).ph_baseline_avg = (vs.map Reading.pH).sum / 32 ∧
      (baselineRun vs).turbidity_baseline_avg = (vs.map Reading.turbidity).sum / 32 ∧
      (baselineRun vs).do_baseline_avg = (vs.map Reading.dissolvedOxygen).sum / 32 ∧
      (baselineRun vs).conductivity_baseline_avg = (vs.map Reading.conductivity).sum / 32) := by
  intro vs
  induction vs using List.reverseRecOn with
  | nil =>
      intro _
      refine ⟨rfl, rfl, rfl, rfl, rfl, rfl, fun h => by simp at h⟩
  | append_singleton l v ih =>
      intro hlen
      rw [List.length_append, List.length_singleton] at hlen
      have hl : l.length ≤ 32 := by omega
      have hllt : l.length < 32 := by omega
      obtain ⟨ic, icomp, iph, itu, ido, ico, _⟩ := ih hl
      have hnotc : (baselineRun l).baselineComplete = false := by
        rw [icomp]; simp; omega
      have hrun : baselineRun (l ++ [v]) = baselinePush (baselineRun l) v := by
        unfold baselineRun
        rw [List.foldl_append, List.foldl_cons, List.foldl_nil]
      have hrepl : ∀ w : ℚ, List.replicate (32 - l.length) w =
          w :: List.replicate (32 - (l.length + 1)) w := by
        intro w
        have : 32 - l.length = (32 - (l.length + 1)) + 1 := by omega
        rw [this, List.replicate_succ]
      -- the store step
      have hstore : ∀ (arr : List ℚ) (f : Reading → ℚ),
          arr = l.map f ++ List.replicate (32 - l.length) 0 →
          arr.set (baselineRun l).baselineCounter (f v) =
            (l ++ [v]).map f ++ List.replicate (32 - (l.length + 1)) 0 := by
        intro arr f harr
        rw [harr, ic, hrepl 0]
        have hmaplen : l.length = (l.map f).length := (List.length_map l f).symm
        rw [hmaplen, set_append_cons]
        simp
      rw [hrun]
      unfold baselinePush updateBaselineCharacterization finalizeBaseline storeBaselineSample
      rw [if_neg (by rw [hnotc]; simp)]
      simp only []
      by_cases hfin : l.length + 1 = 32
      · rw [if_pos (by simp only [ic]; unfold BASELINE_READINGS; omega)]
        refine ⟨by simp [ic], by simp [icomp, hfin], ?_, ?_, ?_, ?_, ?_⟩
        · simpa using hstore _ Reading.pH iph
        · simpa using hstore _ Reading.turbidity itu
        · simpa using hstore _ Reading.dissolvedOxygen ido
        · simpa using hstore _ Reading.conductivity ico
        · intro _
          have e1 := hstore _ Reading.pH iph
          have e2 := hstore _ Reading.turbidity itu
          have e3 := hstore _ Reading.dissolvedOxygen ido
          have e4 := hstore _ Reading.conductivity ico
          refine ⟨?_, ?_, ?_, ?_⟩ <;>
            simp only [e1, e2, e3, e4, hfin] <;>
            norm_num [BASELINE_READINGS]
      · rw [if_neg (by simp only [ic]; unfold BASELINE_READINGS; omega)]
        rw [List.length_append, List.length_singleton]
        refine ⟨by simp [ic], by simp [icomp]; omega, ?_, ?_, ?_, ?_, fun h => absurd h hfin⟩
        · simpa using hstore _ Reading.pH iph
        · simpa using hstore _ Reading.turbidity itu
        · simpa using hstore _ Reading.dissolvedOxygen ido
        · simpa using hstore _ Reading.conductivity ico

end Water

namespace Water

theorem baselinePush_complete (s : WaterState) (v : Reading)
    (h : s.baselineComplete = true) :
    (baselinePush s v).baselineComplete = true ∧
    (baselinePush s v).baselineCounter = s.baselineCounter ∧
    (baselinePush s v).ph_baseline_avg = s.ph_baseline_avg ∧
    (baselinePush s v).turbidity_baseline_avg = s.turbidity_baseline_avg ∧
    (baselinePush s v).do_baseline_avg = s.do_baseline_avg ∧
    (baselinePush s v).conductivity_baseline_avg = s.conductivity_baseline_avg := by
  unfold baselinePush updateBaselineCharacterization
  rw [if_pos h]
  exact ⟨h, rfl, rfl, rfl, rfl, rfl⟩

theorem baselineRun_noop : ∀ (ws : List Reading) (s : WaterState),
    s.baselineComplete = true →
    (ws.foldl baselinePush s).baselineComplete = true ∧
    (ws.foldl baselinePush s).ph_baseline_avg = s.ph_baseline_avg ∧
    (ws.foldl baselinePush s).turbidity_baseline_avg = s.turbidity_baseline_avg ∧
    (ws.foldl baselinePush s).do_baseline_avg = s.do_baseline_avg ∧
    (ws.foldl baselinePush s).conductivity_baseline_avg = s.conductivity_baseline_avg := by
  intro ws
  induction ws with
  | nil => exact fun s h => ⟨h, rfl, rfl, rfl, rfl⟩
  | cons x xs ih =>
      intro s h
      have hp := baselinePush_complete s x h
      have htail := ih (baselinePush s x) hp.1
      rw [List.foldl_cons]
      exact ⟨htail.1, htail.2.1.trans hp.2.2.1, htail.2.2.1.trans hp.2.2.2.1,
        htail.2.2.2.1.trans hp.2.2.2.2.1, htail.2.2.2.2.trans hp.2.2.2.2.2⟩

theorem updateBaseline_not_complete (s : WaterState) (h : s.baselineComplete = false) :
    (updateBaselineCharacterization s).baselineCounter = s.baselineCounter + 1 ∧
    (updateBaselineCharacterization s).baselineComplete =
      decide (32 ≤ s.baselineCounter + 1) := by
  unfold updateBaselineCharacterization finalizeBaseline storeBaselineSample
  rw [if_neg (by rw [h]; simp)]
  by_cases hc : BASELINE_READINGS ≤ s.baselineCounter + 1
  · rw [if_pos hc]
    unfold BASELINE_READINGS at hc
    exact ⟨rfl, by rw [decide_eq_true hc]⟩
  · rw [if_neg hc]
    unfold BASELINE_READINGS at hc
    refine ⟨rfl, ?_⟩
    rw [h, decide_eq_false hc]

/-- During the baseline characterization phase (at most 32 readings) the
alert level, quality index, rating and alert flags all keep their initial
zero values, and the completion flag turns true exactly with the 32nd
reading. -/
theorem waterLoop_phase : ∀ ins : List WaterInput, ins.length ≤ 32 →
    (waterRun (ins.map some)).baselineCounter = ins.length ∧
    (waterRun (ins.map some)).baselineComplete = decide (ins.length = 32) ∧
    (waterRun (ins.map some)).cur_alertLevel = 0 ∧
    (waterRun (ins.map some)).cur_wqi = 0 ∧
    (waterRun (ins.map some)).cur_qualityRating = 0 ∧
    (waterRun (ins.map some)).cautionAlertActive = false ∧
    (waterRun (ins.map some)).criticalAlertActive = false := by
  intro ins
  induction ins using List.reverseRecOn with
  | nil => exact fun _ => ⟨rfl, rfl, rfl, rfl, rfl, rfl, rfl⟩
  | append_singleton l v ih =>
      intro hlen
      rw [List.length_append, List.length_singleton] at hlen
      obtain ⟨ic, icomp, ialert, iwqi, irate, ica, icr⟩ := ih (by omega)
      have hrun : waterRun ((l ++ [v]).map some) =
          waterLoopTick (waterRun (l.map some)) (some v) := by
        unfold waterRun
        rw [List.map_append, List.foldl_append]
        rfl
      have hr := readSensors_alert_fields (waterRun (l.map some)) (some v)
      have hrcomp : (readSensors (waterRun (l.map some)) (some v)).baselineComplete
          = false := by
        rw [hr.2.2.2.2.1, icomp, decide_eq_false (by omega)]
      have hu := updateBaseline_not_complete
        (readSensors (waterRun (l.map some)) (some v)) hrcomp
      have hualert := updateBaseline_alert_fields
        (readSensors (waterRun (l.map some)) (some v))
      rw [hrun]
      unfold waterLoopTick
      rw [if_pos hrcomp]
      refine ⟨?_, ?_, ?_, ?_, ?_, ?_, ?_⟩
      · rw [hu.1, hr.2.2.2.2.2.1, ic, List.length_append, List.length_singleton]
      · rw [hu.2, hr.2.2.2.2.2.1, ic, List.length_append, List.length_singleton]
        exact decide_eq_decide.mpr (by omega)
      · rw [hualert.1, hr.1, ialert]
      · rw [hualert.2.2.2.2.1, hr.2.2.2.2.2.2.1, iwqi]
      · rw [hualert.2.2.2.2.2, hr.2.2.2.2.2.2.2, irate]
      · rw [hualert.2.1, hr.2.1, ica]
      · rw [hualert.2.2.1, hr.2.2.1, icr]

end Water

/-! ### Claims -/

/-- Claim C1, counterexample: after a tick with 4 indicators active
(level 3 active and levels 1-2 latched), a tick with `fireIndicators = 2`
(not below tier 1's threshold) already deactivates level 2, so lower tiers
do not remain active until `fireIndicators < 2`. -/
theorem C1_counterexample :
    (Fire.fireRun [Fire.escalateInput]).level3AlertActive = true ∧
    (Fire.fireRun [Fire.escalateInput]).level2AlertActive = true ∧
    Fire.countIndicators (Fire.evaluateFireIndicators Fire.twoInput) = 2 ∧
    (Fire.fireRun [Fire.escalateInput, Fire.twoInput]).level2AlertActive = false := by
  norm_num [Fire.fireRun, Fire.checkFireAlertLevels, Fire.level1Block, Fire.level2Block,
    Fire.level3Block, Fire.globalResetBlock, Fire.countIndicators,
    Fire.evaluateFireIndicators, Fire.escalateInput, Fire.twoInput, Fire.initFireState,
    Fire.TEMP_THRESHOLD, Fire.HUMIDITY_THRESHOLD, Fire.MQ2_BASELINE, Fire.MQ7_BASELINE,
    Fire.GAS_BASELINE_INCREASE]

/-- Claim C1, amended: when fewer than 2 indicators are active all tiers and
the level reset together in one step; a tick with at least 4 active
indicators forces all three tiers active; but on a tick with exactly 2
active indicators the higher tiers deactivate immediately (their own
predicates are false) while tier 1 keeps its previous latched state -- the
escalation latch holds lower tiers only on ticks where the higher tier's
own predicate holds. -/
theorem C1_amended (s : Fire.FireState) (inp : Fire.FireInput) :
    (Fire.countIndicators (Fire.evaluateFireIndicators inp) < 2 →
      (Fire.checkFireAlertLevels s inp).level1AlertActive = false ∧
      (Fire.checkFireAlertLevels s inp).level2AlertActive = false ∧
      (Fire.checkFireAlertLevels s inp).level3AlertActive = false ∧
      (Fire.checkFireAlertLevels s inp).alertLevel = 0) ∧
    (4 ≤ Fire.countIndicators (Fire.evaluateFireIndicators inp) →
      (Fire.checkFireAlertLevels s inp).level1AlertActive = true ∧
      (Fire.checkFireAlertLevels s inp).level2AlertActive = true ∧
      (Fire.checkFireAlertLevels s inp).level3AlertActive = true) ∧
    (Fire.countIndicators (Fire.evaluateFireIndicators inp) = 2 →
      (Fire.checkFireAlertLevels s inp).level2AlertActive = false ∧
      (Fire.checkFireAlertLevels s inp).level3AlertActive = false ∧
      (Fire.checkFireAlertLevels s inp).level1AlertActive =
        (s.level1AlertActive || decide (5 ≤ s.level1AlertCount + 1))) := by
  refine ⟨fun h => ?_, fun h => ?_, fun h => ?_⟩
  · simp only [Fire.checkFireAlertLevels, Fire.globalResetBlock_lt _ _ h]
    exact ⟨trivial, trivial, trivial, trivial⟩
  · have hge : 2 ≤ Fire.countIndicators (Fire.evaluateFireIndicators inp) := by omega
    simp only [Fire.checkFireAlertLevels, Fire.globalResetBlock_ge _ _ hge,
      Fire.level3Block_ge _ _ h]
    exact ⟨trivial, trivial, trivial⟩
  · have hge : 2 ≤ Fire.countIndicators (Fire.evaluateFireIndicators inp) := by omega
    have hlt4 : Fire.countIndicators (Fire.evaluateFireIndicators inp) < 4 := by omega
    have hlt3 : Fire.countIndicators (Fire.evaluateFireIndicators inp) < 3 := by omega
    have hd := Fire.countIndicators_two_disj (Fire.evaluateFireIndicators inp) hge
    simp only [Fire.checkFireAlertLevels, Fire.globalResetBlock_ge _ _ hge,
      Fire.level3Block_lt _ _ hlt4, Fire.level2Block_lt _ _ hlt3,
      Fire.level1Block_true _ _ _ hd hge]
    by_cases h5 : 5 ≤ s.level1AlertCount + 1
    · rw [if_pos h5]; simp [h5]
    · rw [if_neg h5]; simp [h5]

/-- Claim C1, witness for the amended theorem at concrete inputs. -/
theorem C1_witness :
    ((Fire.checkFireAlertLevels Fire.initFireState
        { temperature := 0, humidity := 50, mq2_raw := 0, mq7_raw := 0,
          smokeDetected := false }).alertLevel = 0) ∧
    ((Fire.checkFireAlertLevels Fire.initFireState Fire.escalateInput).level3AlertActive
        = true) ∧
    ((Fire.checkFireAlertLevels Fire.initFireState Fire.twoInput).level2AlertActive
        = false) := by
  refine ⟨?_, ?_, ?_⟩
  · exact ((C1_amended Fire.initFireState _).1 (by
      norm_num [Fire.countIndicators, Fire.evaluateFireIndicators, Fire.TEMP_THRESHOLD,
        Fire.HUMIDITY_THRESHOLD, Fire.MQ2_BASELINE, Fire.MQ7_BASELINE,
        Fire.GAS_BASELINE_INCREASE])).2.2.2
  · exact ((C1_amended Fire.initFireState Fire.escalateInput).2.1 (by
      norm_num [Fire.countIndicators, Fire.evaluateFireIndicators, Fire.escalateInput,
        Fire.TEMP_THRESHOLD, Fire.HUMIDITY_THRESHOLD, Fire.MQ2_BASELINE,
        Fire.MQ7_BASELINE, Fire.GAS_BASELINE_INCREASE])).2.2
  · exact ((C1_amended Fire.initFireState Fire.twoInput).2.2
      (by
        norm_num [Fire.countIndicators, Fire.evaluateFireIndicators, Fire.twoInput,
          Fire.TEMP_THRESHOLD, Fire.HUMIDITY_THRESHOLD, Fire.MQ2_BASELINE,
          Fire.MQ7_BASELINE, Fire.GAS_BASELINE_INCREASE])).1

/-- Claim C3, counterexample: after the trace (4 indicators, then 2), only
level 1 is still active but `alertLevel` retains the stale value 3, so the
derived level does not equal the highest active tier in the fire system. -/
theorem C3_counterexample :
    (Fire.fireRun [Fire.escalateInput, Fire.twoInput]).alertLevel = 3 ∧
    (Fire.fireRun [Fire.escalateInput, Fire.twoInput]).level1AlertActive = true ∧
    (Fire.fireRun [Fire.escalateInput, Fire.twoInput]).level2AlertActive = false ∧
    (Fire.fireRun [Fire.escalateInput, Fire.twoInput]).level3AlertActive = false := by
  norm_num [Fire.fireRun, Fire.checkFireAlertLevels, Fire.level1Block, Fire.level2Block,
    Fire.level3Block, Fire.globalResetBlock, Fire.countIndicators,
    Fire.evaluateFireIndicators, Fire.escalateInput, Fire.twoInput, Fire.initFireState,
    Fire.TEMP_THRESHOLD, Fire.HUMIDITY_THRESHOLD, Fire.MQ2_BASELINE, Fire.MQ7_BASELINE,
    Fire.GAS_BASELINE_INCREASE]

/-- Claim C3, amended: in the water system the invariant does hold -- at the
end of every tick the derived alert level equals the index of the highest
active tier (2 for critical, 1 for caution, 0 for none), for every input
trace including NaN ticks. (In the fire system the level can go stale, see
the counterexample.) -/
theorem C3_amended (l : List (Option Water.WaterInput)) :
    (Water.waterRun l).cur_alertLevel =
      if (Water.waterRun l).criticalAlertActive = true then 2
      else if (Water.waterRun l).cautionAlertActive = true then 1 else 0 :=
  (Water.waterRun_levelOk l).1

/-- Claim C8, counterexample: 7 consecutive all-indicator ticks leave the
tier-1 counter at 7, beyond the claimed cap of debounce threshold + 1 = 6. -/
theorem C8_counterexample :
    (Fire.fireRun (List.replicate 7 Fire.allIndicatorsInput)).level1AlertCount = 7 ∧
    5 + 1 < 7 :=
  ⟨(Fire.fireRun_allOn_counts 7).1, by norm_num⟩

/-- Claim C8, amended: the alert counters are not capped -- after `n`
consecutive qualifying ticks each tier's counter equals exactly `n` and so
grows without bound while the condition persists. -/
theorem C8_amended (n : Nat) :
    (Fire.fireRun (List.replicate n Fire.allIndicatorsInput)).level1AlertCount = n ∧
    (Fire.fireRun (List.replicate n Fire.allIndicatorsInput)).level2AlertCount = n ∧
    (Fire.fireRun (List.replicate n Fire.allIndicatorsInput)).level3AlertCount = n :=
  Fire.fireRun_allOn_counts n

/-- Claim C2, counterexample: in the soil system a tick whose filtered
moisture is not below 30.0 (it lies in the dead band) does not reset the
low-moisture counter -- after two such ticks the counter is 2, not 0. -/
theorem C2_counterexample :
    Soil.MOISTURE_THRESHOLD_LOW ≤
      Soil.getFilteredMoisture
        (Soil.readSensors (Soil.soilRun [some Soil.bandInput]) (some Soil.bandInput)) ∧
    (Soil.soilRun [some Soil.bandInput, some Soil.bandInput]).lowMoistureCount = 2 := by
  norm_num [Soil.soilRun, Soil.soilSensorTick, Soil.readSensors, Soil.updateMovingAverage,
    Soil.checkAlertConditions, Soil.lowMoistureBlock, Soil.heatStressBlock,
    Soil.phImbalanceBlock, Soil.getFilteredMoisture, Soil.getFilteredTemp,
    Soil.getFilteredHumidity, Soil.calibrateMoisture, Soil.calibratePH,
    Soil.initSoilState, Soil.bandInput, constrain, ADC_MAX, Soil.MOISTURE_THRESHOLD_LOW,
    Soil.MOISTURE_THRESHOLD_HIGH, Soil.TEMP_HEAT_STRESS, Soil.HUMIDITY_HEAT_STRESS,
    Soil.PH_MIN, Soil.PH_MAX]

/-- Claim C2, amended: each fire tier activates exactly on the tick where
its consecutive count first reaches its debounce threshold (5, 2 and 1
ticks for tiers 1, 2 and 3), and any single tick falsifying the tier's own
predicate resets its count to 0 and deactivates it immediately -- absent
the escalation latch, i.e. on ticks that do not activate a higher tier;
shown per tick from every state and along every sequence of qualifying
ticks. In the soil system only a tick with filtered moisture strictly
above 35.0 resets the low-moisture counter, while a tick in the dead band
[30, 35] increments it and leaves the alert flag as it was. -/
theorem C2_amended :
    (∀ (s : Fire.FireState) (inp : Fire.FireInput),
      (Fire.countIndicators (Fire.evaluateFireIndicators inp) < 2 →
        (Fire.checkFireAlertLevels s inp).level1AlertCount = 0 ∧
        (Fire.checkFireAlertLevels s inp).level1AlertActive = false) ∧
      (Fire.countIndicators (Fire.evaluateFireIndicators inp) < 3 →
        (Fire.checkFireAlertLevels s inp).level2AlertCount = 0 ∧
        (Fire.checkFireAlertLevels s inp).level2AlertActive = false) ∧
      (Fire.countIndicators (Fire.evaluateFireIndicators inp) < 4 →
        (Fire.checkFireAlertLevels s inp).level3AlertCount = 0 ∧
        (Fire.checkFireAlertLevels s inp).level3AlertActive = false)) ∧
    (∀ (s : Fire.FireState) (inp : Fire.FireInput),
      (2 ≤ Fire.countIndicators (Fire.evaluateFireIndicators inp) →
        Fire.countIndicators (Fire.evaluateFireIndicators inp) < 3 →
        (Fire.checkFireAlertLevels s inp).level1AlertCount = s.level1AlertCount + 1 ∧
        (Fire.checkFireAlertLevels s inp).level1AlertActive =
          (s.level1AlertActive || decide (5 ≤ s.level1AlertCount + 1))) ∧
      (3 ≤ Fire.countIndicators (Fire.evaluateFireIndicators inp) →
        Fire.countIndicators (Fire.evaluateFireIndicators inp) < 4 →
        (Fire.checkFireAlertLevels s inp).level2AlertCount = s.level2AlertCount + 1 ∧
        (Fire.checkFireAlertLevels s inp).level2AlertActive =
          (s.level2AlertActive || decide (2 ≤ s.level2AlertCount + 1))) ∧
      (4 ≤ Fire.countIndicators (Fire.evaluateFireIndicators inp) →
        (Fire.checkFireAlertLevels s inp).level3AlertCount = s.level3AlertCount + 1 ∧
        (Fire.checkFireAlertLevels s inp).level3AlertActive =
          (s.level3AlertActive || decide (1 ≤ s.level3AlertCount + 1)))) ∧
    (∀ l : List Fire.FireInput,
      (∀ i ∈ l, 2 ≤ Fire.countIndicators (Fire.evaluateFireIndicators i) ∧
        Fire.countIndicators (Fire.evaluateFireIndicators i) < 3) →
      (Fire.fireRun l).level1AlertCount = l.length ∧
      (Fire.fireRun l).level1AlertActive = decide (5 ≤ l.length)) ∧
    (∀ l : List Fire.FireInput,
      (∀ i ∈ l, 3 ≤ Fire.countIndicators (Fire.evaluateFireIndicators i) ∧
        Fire.countIndicators (Fire.evaluateFireIndicators i) < 4) →
      (Fire.fireRun l).level2AlertCount = l.length ∧
      (Fire.fireRun l).level2AlertActive = decide (2 ≤ l.length)) ∧
    (∀ l : List Fire.FireInput,
      (∀ i ∈ l, 4 ≤ Fire.countIndicators (Fire.evaluateFireIndicators i)) →
      (Fire.fireRun l).level3AlertCount = l.length ∧
      (Fire.fireRun l).level3AlertActive = decide (1 ≤ l.length)) ∧
    (∀ s : Soil.SoilState,
      Soil.MOISTURE_THRESHOLD_HIGH < Soil.getFilteredMoisture s →
      (Soil.checkAlertConditions s).lowMoistureCount = 0 ∧
      (Soil.checkAlertConditions s).irrigationAlertActive = false) ∧
    (∀ s : Soil.SoilState,
      Soil.MOISTURE_THRESHOLD_LOW ≤ Soil.getFilteredMoisture s →
      Soil.getFilteredMoisture s ≤ Soil.MOISTURE_THRESHOLD_HIGH →
      (Soil.checkAlertConditions s).lowMoistureCount = s.lowMoistureCount + 1 ∧
      (Soil.checkAlertConditions s).irrigationAlertActive = s.irrigationAlertActive) := by
  refine ⟨fun s inp => ⟨Fire.fireStep_tier1_reset s inp, Fire.fireStep_tier2_reset s inp,
      Fire.fireStep_tier3_reset s inp⟩,
    fun s inp => ⟨Fire.fireStep_tier1_qualify s inp, Fire.fireStep_tier2_qualify s inp,
      fun h => ⟨(Fire.fireStep_tier3_qualify s inp h).1, ?_⟩⟩,
    Fire.fireRun_tier1_debounce, Fire.fireRun_tier2_debounce, Fire.fireRun_tier3_debounce,
    ?_, ?_⟩
  · rw [(Fire.fireStep_tier3_qualify s inp h).2,
      decide_eq_true (show 1 ≤ s.level3AlertCount + 1 by omega), Bool.or_true]
  · intro s h
    rw [(Soil.checkAlert_low_fields s).1, (Soil.checkAlert_low_fields s).2,
      Soil.lowMoistureBlock_high _ _ h]
    exact ⟨rfl, rfl⟩
  · intro s h1 h2
    rw [(Soil.checkAlert_low_fields s).1, (Soil.checkAlert_low_fields s).2,
      Soil.lowMoistureBlock_band _ _ (not_lt.mpr h1) (not_lt.mpr h2)]
    exact ⟨rfl, rfl⟩

/-- Claim C2, witness for the amended theorem: every hypothesis exercised
at concrete inputs -- disqualifying and qualifying ticks for each of the
three fire tiers, qualifying traces of each tier reaching its threshold,
and the soil reset and dead-band cases at reachable states. -/
theorem C2_witness :
    ((Fire.checkFireAlertLevels Fire.initFireState
        { temperature := 0, humidity := 50, mq2_raw := 0, mq7_raw := 0,
          smokeDetected := false }).level1AlertCount = 0) ∧
    ((Fire.checkFireAlertLevels Fire.initFireState Fire.twoInput).level2AlertCount = 0) ∧
    ((Fire.checkFireAlertLevels Fire.initFireState Fire.threeInput).level3AlertCount = 0) ∧
    ((Fire.checkFireAlertLevels Fire.initFireState Fire.twoInput).level1AlertCount = 1) ∧
    ((Fire.checkFireAlertLevels Fire.initFireState Fire.threeInput).level2AlertCount = 1) ∧
    ((Fire.checkFireAlertLevels Fire.initFireState Fire.escalateInput).level3AlertCount
      = 1) ∧
    ((Fire.fireRun (List.replicate 5 Fire.twoInput)).level1AlertActive = true) ∧
    ((Fire.fireRun (List.replicate 2 Fire.threeInput)).level2AlertActive = true) ∧
    ((Fire.fireRun (List.replicate 1 Fire.escalateInput)).level3AlertActive = true) ∧
    ((Soil.checkAlertConditions
        (Soil.soilRun [some Soil.highInput])).lowMoistureCount = 0) ∧
    ((Soil.checkAlertConditions
        (Soil.soilRun [some Soil.bandInput, some Soil.bandInput])).lowMoistureCount =
      (Soil.soilRun [some Soil.bandInput, some Soil.bandInput]).lowMoistureCount + 1) := by
  refine ⟨?_, ?_, ?_, ?_, ?_, ?_, ?_, ?_, ?_, ?_, ?_⟩
  · exact ((C2_amended.1 Fire.initFireState _).1 (by
      norm_num [Fire.countIndicators, Fire.evaluateFireIndicators, Fire.TEMP_THRESHOLD,
        Fire.HUMIDITY_THRESHOLD, Fire.MQ2_BASELINE, Fire.MQ7_BASELINE,
        Fire.GAS_BASELINE_INCREASE])).1
  · exact ((C2_amended.1 Fire.initFireState Fire.twoInput).2.1
      (by rw [Fire.count_twoInput]; try omega)).1
  · exact ((C2_amended.1 Fire.initFireState Fire.threeInput).2.2
      (by rw [Fire.count_threeInput]; try omega)).1
  · exact (((C2_amended.2.1 Fire.initFireState Fire.twoInput).1
      (by rw [Fire.count_twoInput]) (by rw [Fire.count_twoInput]; try omega)).1).trans
      (by norm_num [Fire.initFireState])
  · exact (((C2_amended.2.1 Fire.initFireState Fire.threeInput).2.1
      (by rw [Fire.count_threeInput]; try omega) (by rw [Fire.count_threeInput]; try omega)).1).trans
      (by norm_num [Fire.initFireState])
  · exact (((C2_amended.2.1 Fire.initFireState Fire.escalateInput).2.2
      (by rw [Fire.count_escalateInput]; try omega)).1).trans
      (by norm_num [Fire.initFireState])
  · exact ((C2_amended.2.2.1 (List.replicate 5 Fire.twoInput) (by
      intro i hi
      rw [List.eq_of_mem_replicate hi, Fire.count_twoInput]
      try omega)).2).trans (by simp)
  · exact ((C2_amended.2.2.2.1 (List.replicate 2 Fire.threeInput) (by
      intro i hi
      rw [List.eq_of_mem_replicate hi, Fire.count_threeInput]
      try omega)).2).trans (by simp)
  · exact ((C2_amended.2.2.2.2.1 (List.replicate 1 Fire.escalateInput) (by
      intro i hi
      rw [List.eq_of_mem_replicate hi, Fire.count_escalateInput]
      try omega)).2).trans (by simp)
  · exact (C2_amended.2.2.2.2.2.1 _ (by
      norm_num [Soil.soilRun, Soil.soilSensorTick, Soil.readSensors,
        Soil.updateMovingAverage, Soil.checkAlertConditions, Soil.lowMoistureBlock,
        Soil.heatStressBlock, Soil.phImbalanceBlock, Soil.getFilteredMoisture,
        Soil.getFilteredTemp, Soil.getFilteredHumidity, Soil.calibrateMoisture,
        Soil.calibratePH, Soil.initSoilState, Soil.highInput, constrain, ADC_MAX,
        Soil.MOISTURE_THRESHOLD_LOW, Soil.MOISTURE_THRESHOLD_HIGH,
        Soil.TEMP_HEAT_STRESS, Soil.HUMIDITY_HEAT_STRESS, Soil.PH_MIN,
        Soil.PH_MAX])).1
  · exact (C2_amended.2.2.2.2.2.2 _
      (by
        norm_num [Soil.soilRun, Soil.soilSensorTick, Soil.readSensors,
          Soil.updateMovingAverage, Soil.checkAlertConditions, Soil.lowMoistureBlock,
          Soil.heatStressBlock, Soil.phImbalanceBlock, Soil.getFilteredMoisture,
          Soil.getFilteredTemp, Soil.getFilteredHumidity, Soil.calibrateMoisture,
          Soil.calibratePH, Soil.initSoilState, Soil.bandInput, constrain, ADC_MAX,
          Soil.MOISTURE_THRESHOLD_LOW, Soil.MOISTURE_THRESHOLD_HIGH,
          Soil.TEMP_HEAT_STRESS, Soil.HUMIDITY_HEAT_STRESS, Soil.PH_MIN, Soil.PH_MAX])
      (by
        norm_num [Soil.soilRun, Soil.soilSensorTick, Soil.readSensors,
          Soil.updateMovingAverage, Soil.checkAlertConditions, Soil.lowMoistureBlock,
          Soil.heatStressBlock, Soil.phImbalanceBlock, Soil.getFilteredMoisture,
          Soil.getFilteredTemp, Soil.getFilteredHumidity, Soil.calibrateMoisture,
          Soil.calibratePH, Soil.initSoilState, Soil.bandInput, constrain, ADC_MAX,
          Soil.MOISTURE_THRESHOLD_LOW, Soil.MOISTURE_THRESHOLD_HIGH,
          Soil.TEMP_HEAT_STRESS, Soil.HUMIDITY_HEAT_STRESS, Soil.PH_MIN,
          Soil.PH_MAX])).1

/-- Claim C4, counterexample: after a single push of a value calibrating to
100, the exposed mean is 50 (the zero-initialized second slot is averaged
in), not the partial-window mean 100 of the one sample pushed so far. -/
theorem C4_counterexample :
    Soil.calibrateMoisture Soil.highInput.moistureRaw = 100 ∧
    Soil.getFilteredMoisture (Soil.soilRun [some Soil.highInput]) = 50 ∧
    (50 : ℚ) ≠ 100 := by
  norm_num [Soil.soilRun, Soil.soilSensorTick, Soil.readSensors, Soil.updateMovingAverage,
    Soil.checkAlertConditions, Soil.lowMoistureBlock, Soil.heatStressBlock,
    Soil.phImbalanceBlock, Soil.getFilteredMoisture, Soil.getFilteredTemp,
    Soil.getFilteredHumidity, Soil.calibrateMoisture, Soil.calibratePH,
    Soil.initSoilState, Soil.highInput, constrain, ADC_MAX, Soil.MOISTURE_THRESHOLD_LOW,
    Soil.MOISTURE_THRESHOLD_HIGH, Soil.TEMP_HEAT_STRESS, Soil.HUMIDITY_HEAT_STRESS,
    Soil.PH_MIN, Soil.PH_MAX]

/-- Claim C4, amended: the moving-average filter always averages all
`BUFFER_SIZE = 2` slots: once at least two values have been pushed the
exposed mean is the mean of the last two pushed values (correct circular
overwrite), but after a single push the mean is that value divided by 2,
the unfilled slot counting as 0 -- not a partial-window mean. -/
theorem C4_amended :
    (∀ (pre : List (Option Soil.SoilInput)) (a b : Soil.SoilInput),
      Soil.getFilteredMoisture (Soil.soilRun (pre ++ [some a, some b])) =
        (Soil.calibrateMoisture a.moistureRaw + Soil.calibrateMoisture b.moistureRaw) / 2) ∧
    (∀ a : Soil.SoilInput,
      Soil.getFilteredMoisture (Soil.soilRun [some a]) =
        Soil.calibrateMoisture a.moistureRaw / 2) := by
  constructor
  · intro pre a b
    have hsplit : Soil.soilRun (pre ++ [some a, some b]) =
        Soil.soilSensorTick (Soil.soilSensorTick (Soil.soilRun pre) (some a)) (some b) := by
      unfold Soil.soilRun
      rw [List.foldl_append, List.foldl_cons, List.foldl_cons, List.foldl_nil]
    rw [hsplit]
    exact Soil.two_pushes_filtered _ (Soil.soilRun_index pre) a b
  · intro a
    have hb := Soil.soilSensorTick_some_buffer Soil.initSoilState a
    have hone : Soil.soilRun [some a] = Soil.soilSensorTick Soil.initSoilState (some a) := by
      unfold Soil.soilRun
      rw [List.foldl_cons, List.foldl_nil]
    rw [hone]
    unfold Soil.getFilteredMoisture
    rw [hb.1, hb.2.1]
    norm_num [Soil.initSoilState]

/-- Claim C9, counterexample: the irrigation alert activates on a trace
whose first two filtered readings lie in the dead band (not below 30.0) and
only the third is below 30.0 -- activation does not require three
consecutive readings below the low threshold. -/
theorem C9_counterexample :
    (Soil.soilRun [some Soil.rawInput1392, some Soil.rawInput4013,
        some Soil.rawInput2900]).irrigationAlertActive = true ∧
    ¬ Soil.getFilteredMoisture
        (Soil.readSensors Soil.initSoilState (some Soil.rawInput1392)) <
      Soil.MOISTURE_THRESHOLD_LOW ∧
    ¬ Soil.getFilteredMoisture
        (Soil.readSensors (Soil.soilRun [some Soil.rawInput1392])
          (some Soil.rawInput4013)) <
      Soil.MOISTURE_THRESHOLD_LOW := by
  norm_num [Soil.soilRun, Soil.soilSensorTick, Soil.readSensors, Soil.updateMovingAverage,
    Soil.checkAlertConditions, Soil.lowMoistureBlock, Soil.heatStressBlock,
    Soil.phImbalanceBlock, Soil.getFilteredMoisture, Soil.getFilteredTemp,
    Soil.getFilteredHumidity, Soil.calibrateMoisture, Soil.calibratePH,
    Soil.initSoilState, Soil.rawInput1392, Soil.rawInput4013, Soil.rawInput2900,
    constrain, ADC_MAX, Soil.MOISTURE_THRESHOLD_LOW, Soil.MOISTURE_THRESHOLD_HIGH,
    Soil.TEMP_HEAT_STRESS, Soil.HUMIDITY_HEAT_STRESS, Soil.PH_MIN, Soil.PH_MAX]

/-- Claim C9, amended: once the irrigation alert is active it stays active
on every tick whose filtered moisture does not exceed 35.0; a tick above
35.0 clears the alert and the counter; a dead-band tick increments the
counter without touching the flag; and the alert activates on a tick with
filtered moisture below 30.0 once the counter (fed by low and dead-band
ticks alike) has reached 3. -/
theorem C9_amended (s : Soil.SoilState) :
    (s.irrigationAlertActive = true →
      Soil.getFilteredMoisture s ≤ Soil.MOISTURE_THRESHOLD_HIGH →
      (Soil.checkAlertConditions s).irrigationAlertActive = true) ∧
    (Soil.MOISTURE_THRESHOLD_HIGH < Soil.getFilteredMoisture s →
      (Soil.checkAlertConditions s).irrigationAlertActive = false ∧
      (Soil.checkAlertConditions s).lowMoistureCount = 0) ∧
    (Soil.MOISTURE_THRESHOLD_LOW ≤ Soil.getFilteredMoisture s →
      Soil.getFilteredMoisture s ≤ Soil.MOISTURE_THRESHOLD_HIGH →
      (Soil.checkAlertConditions s).lowMoistureCount = s.lowMoistureCount + 1 ∧
      (Soil.checkAlertConditions s).irrigationAlertActive = s.irrigationAlertActive) ∧
    (Soil.getFilteredMoisture s < Soil.MOISTURE_THRESHOLD_LOW →
      3 ≤ s.lowMoistureCount + 1 →
      (Soil.checkAlertConditions s).irrigationAlertActive = true) := by
  refine ⟨fun ha hm => ?_, fun h => ?_, fun h1 h2 => ?_, fun h1 h2 => ?_⟩
  · rw [(Soil.checkAlert_low_fields s).2]
    by_cases hlow : Soil.getFilteredMoisture s < Soil.MOISTURE_THRESHOLD_LOW
    · rw [Soil.lowMoistureBlock_low _ _ hlow]
      by_cases hc : 3 ≤ s.lowMoistureCount + 1
      · rw [if_pos hc]
      · rw [if_neg hc]; exact ha
    · rw [Soil.lowMoistureBlock_band _ _ hlow (not_lt.mpr hm)]
      exact ha
  · rw [(Soil.checkAlert_low_fields s).1, (Soil.checkAlert_low_fields s).2,
      Soil.lowMoistureBlock_high _ _ h]
    exact ⟨rfl, rfl⟩
  · rw [(Soil.checkAlert_low_fields s).1, (Soil.checkAlert_low_fields s).2,
      Soil.lowMoistureBlock_band _ _ (not_lt.mpr h1) (not_lt.mpr h2)]
    exact ⟨rfl, rfl⟩
  · rw [(Soil.checkAlert_low_fields s).2, Soil.lowMoistureBlock_low _ _ h1, if_pos h2]

/-- Claim C9, witness for the amended theorem at concrete states. -/
theorem C9_witness :
    ((Soil.checkAlertConditions
        (Soil.soilRun [some Soil.rawInput1392, some Soil.rawInput4013,
          some Soil.rawInput2900])).irrigationAlertActive = true) ∧
    ((Soil.checkAlertConditions
        (Soil.soilRun [some Soil.highInput])).irrigationAlertActive = false) ∧
    ((Soil.checkAlertConditions
        (Soil.readSensors (Soil.soilRun [some Soil.rawInput1392, some Soil.rawInput4013])
          (some Soil.rawInput2900))).irrigationAlertActive = true) := by
  refine ⟨?_, ?_, ?_⟩
  · exact (C9_amended _).1
      (by
        norm_num [Soil.soilRun, Soil.soilSensorTick, Soil.readSensors,
          Soil.updateMovingAverage, Soil.checkAlertConditions, Soil.lowMoistureBlock,
          Soil.heatStressBlock, Soil.phImbalanceBlock, Soil.getFilteredMoisture,
          Soil.getFilteredTemp, Soil.getFilteredHumidity, Soil.calibrateMoisture,
          Soil.calibratePH, Soil.initSoilState, Soil.rawInput1392, Soil.rawInput4013,
          Soil.rawInput2900, constrain, ADC_MAX, Soil.MOISTURE_THRESHOLD_LOW,
          Soil.MOISTURE_THRESHOLD_HIGH, Soil.TEMP_HEAT_STRESS,
          Soil.HUMIDITY_HEAT_STRESS, Soil.PH_MIN, Soil.PH_MAX])
      (by
        norm_num [Soil.soilRun, Soil.soilSensorTick, Soil.readSensors,
          Soil.updateMovingAverage, Soil.checkAlertConditions, Soil.lowMoistureBlock,
          Soil.heatStressBlock, Soil.phImbalanceBlock, Soil.getFilteredMoisture,
          Soil.getFilteredTemp, Soil.getFilteredHumidity, Soil.calibrateMoisture,
          Soil.calibratePH, Soil.initSoilState, Soil.rawInput1392, Soil.rawInput4013,
          Soil.rawInput2900, constrain, ADC_MAX, Soil.MOISTURE_THRESHOLD_LOW,
          Soil.MOISTURE_THRESHOLD_HIGH, Soil.TEMP_HEAT_STRESS,
          Soil.HUMIDITY_HEAT_STRESS, Soil.PH_MIN, Soil.PH_MAX])
  · exact ((C9_amended _).2.1
      (by
        norm_num [Soil.soilRun, Soil.soilSensorTick, Soil.readSensors,
          Soil.updateMovingAverage, Soil.checkAlertConditions, Soil.lowMoistureBlock,
          Soil.heatStressBlock, Soil.phImbalanceBlock, Soil.getFilteredMoisture,
          Soil.getFilteredTemp, Soil.getFilteredHumidity, Soil.calibrateMoisture,
          Soil.calibratePH, Soil.initSoilState, Soil.highInput, constrain, ADC_MAX,
          Soil.MOISTURE_THRESHOLD_LOW, Soil.MOISTURE_THRESHOLD_HIGH,
          Soil.TEMP_HEAT_STRESS, Soil.HUMIDITY_HEAT_STRESS, Soil.PH_MIN,
          Soil.PH_MAX])).1
  · exact (C9_amended _).2.2.2
      (by
        norm_num [Soil.soilRun, Soil.soilSensorTick, Soil.readSensors,
          Soil.updateMovingAverage, Soil.checkAlertConditions, Soil.lowMoistureBlock,
          Soil.heatStressBlock, Soil.phImbalanceBlock, Soil.getFilteredMoisture,
          Soil.getFilteredTemp, Soil.getFilteredHumidity, Soil.calibrateMoisture,
          Soil.calibratePH, Soil.initSoilState, Soil.rawInput1392, Soil.rawInput4013,
          Soil.rawInput2900, constrain, ADC_MAX, Soil.MOISTURE_THRESHOLD_LOW,
          Soil.MOISTURE_THRESHOLD_HIGH, Soil.TEMP_HEAT_STRESS,
          Soil.HUMIDITY_HEAT_STRESS, Soil.PH_MIN, Soil.PH_MAX])
      (by
        norm_num [Soil.soilRun, Soil.soilSensorTick, Soil.readSensors,
          Soil.updateMovingAverage, Soil.checkAlertConditions, Soil.lowMoistureBlock,
          Soil.heatStressBlock, Soil.phImbalanceBlock, Soil.getFilteredMoisture,
          Soil.getFilteredTemp, Soil.getFilteredHumidity, Soil.calibrateMoisture,
          Soil.calibratePH, Soil.initSoilState, Soil.rawInput1392, Soil.rawInput4013,
          Soil.rawInput2900, constrain, ADC_MAX, Soil.MOISTURE_THRESHOLD_LOW,
          Soil.MOISTURE_THRESHOLD_HIGH, Soil.TEMP_HEAT_STRESS,
          Soil.HUMIDITY_HEAT_STRESS, Soil.PH_MIN, Soil.PH_MAX])

/-- Claim C5: after exactly 32 pushed readings the baseline tracker is
complete, each parameter's frozen mean equals the arithmetic mean of those
32 values, and any number of further pushes leaves the completion flag and
all four means unchanged. -/
theorem C5_characterization_freeze (vs : List Water.Reading) (h : vs.length = 32) :
    (Water.baselineRun vs).baselineComplete = true ∧
    (Water.baselineRun vs).ph_baseline_avg = (vs.map Water.Reading.pH).sum / 32 ∧
    (Water.baselineRun vs).turbidity_baseline_avg =
      (vs.map Water.Reading.turbidity).sum / 32 ∧
    (Water.baselineRun vs).do_baseline_avg =
      (vs.map Water.Reading.dissolvedOxygen).sum / 32 ∧
    (Water.baselineRun vs).conductivity_baseline_avg =
      (vs.map Water.Reading.conductivity).sum / 32 ∧
    ∀ ws : List Water.Reading,
      (Water.baselineRun (vs ++ ws)).baselineComplete = true ∧
      (Water.baselineRun (vs ++ ws)).ph_baseline_avg =
        (Water.baselineRun vs).ph_baseline_avg ∧
      (Water.baselineRun (vs ++ ws)).turbidity_baseline_avg =
        (Water.baselineRun vs).turbidity_baseline_avg ∧
      (Water.baselineRun (vs ++ ws)).do_baseline_avg =
        (Water.baselineRun vs).do_baseline_avg ∧
      (Water.baselineRun (vs ++ ws)).conductivity_baseline_avg =
        (Water.baselineRun vs).conductivity_baseline_avg := by
  obtain ⟨_, hcomp, _, _, _, _, havg⟩ := Water.baselineRun_spec vs (le_of_eq h)
  have hcomp2 : (Water.baselineRun vs).baselineComplete = true := by
    rw [hcomp, decide_eq_true h]
  obtain ⟨a1, a2, a3, a4⟩ := havg h
  refine ⟨hcomp2, a1, a2, a3, a4, fun ws => ?_⟩
  have hws : Water.baselineRun (vs ++ ws) =
      ws.foldl Water.baselinePush (Water.baselineRun vs) := by
    unfold Water.baselineRun
    rw [List.foldl_append]
  have hno := Water.baselineRun_noop ws (Water.baselineRun vs) hcomp2
  rw [hws]
  exact ⟨hno.1, hno.2.1, hno.2.2.1, hno.2.2.2.1, hno.2.2.2.2⟩

/-- Claim C5, witness: 32 pushes of a constant reading with pH 6 freeze the
pH baseline mean at 6. -/
theorem C5_witness :
    (Water.baselineRun (List.replicate 32 Water.calmReading)).baselineComplete = true ∧
    (Water.baselineRun (List.replicate 32 Water.calmReading)).ph_baseline_avg = 6 := by
  have h := C5_characterization_freeze (List.replicate 32 Water.calmReading) (by simp)
  refine ⟨h.1, ?_⟩
  rw [h.2.1, List.map_replicate, List.sum_replicate]
  norm_num [Water.calmReading]

/-- Claim C6: for every raw ADC value in `[0, ADC_MAX]` and every (finite)
temperature, the calibration functions return values inside their
documented physical ranges: moisture in [0, 100], pH in [0, 14], dissolved
oxygen in [0, 15] and MQ-2 ppm in [0, 500]. -/
theorem C6_calibration_bounds (raw T : ℚ) (_h0 : 0 ≤ raw) (_h1 : raw ≤ ADC_MAX) :
    (0 ≤ Soil.calibrateMoisture raw ∧ Soil.calibrateMoisture raw ≤ 100) ∧
    (0 ≤ Soil.calibratePH raw ∧ Soil.calibratePH raw ≤ 14) ∧
    (0 ≤ Water.calibrateDissolvedOxygen raw T ∧
      Water.calibrateDissolvedOxygen raw T ≤ 15) ∧
    (0 ≤ Fire.convertMQ2ToPPM raw ∧ Fire.convertMQ2ToPPM raw ≤ 500) :=
  ⟨constrain_bounds _ _ _ (by norm_num), constrain_bounds _ _ _ (by norm_num),
    constrain_bounds _ _ _ (by norm_num), constrain_bounds _ _ _ (by norm_num)⟩

/-- Claim C6, witness at raw 1000 and temperature 25. -/
theorem C6_witness :
    (0 : ℚ) ≤ 1000 ∧ (1000 : ℚ) ≤ ADC_MAX ∧
      ((0 ≤ Soil.calibrateMoisture 1000 ∧ Soil.calibrateMoisture 1000 ≤ 100) ∧
        (0 ≤ Soil.calibratePH 1000 ∧ Soil.calibratePH 1000 ≤ 14) ∧
        (0 ≤ Water.calibrateDissolvedOxygen 1000 25 ∧
          Water.calibrateDissolvedOxygen 1000 25 ≤ 15) ∧
        (0 ≤ Fire.convertMQ2ToPPM 1000 ∧ Fire.convertMQ2ToPPM 1000 ≤ 500)) :=
  ⟨by norm_num, by norm_num [ADC_MAX],
    C6_calibration_bounds 1000 25 (by norm_num) (by norm_num [ADC_MAX])⟩

/-- Claim C7, counterexample: on a NaN tick the downstream evaluation is
not skipped -- the soil alert logic still runs on the stale (initial)
state and increments the low-moisture counter, and the water baseline
characterization still stores a (stale) sample, incrementing its counter. -/
theorem C7_counterexample :
    (Soil.soilRun [none]).lowMoistureCount = 1 ∧
    (Water.waterRun [none]).baselineCounter = 1 := by
  constructor
  · norm_num [Soil.soilRun, Soil.soilSensorTick, Soil.readSensors,
      Soil.checkAlertConditions, Soil.lowMoistureBlock, Soil.heatStressBlock,
      Soil.phImbalanceBlock, Soil.getFilteredMoisture, Soil.getFilteredTemp,
      Soil.getFilteredHumidity, Soil.initSoilState, Soil.MOISTURE_THRESHOLD_LOW,
      Soil.MOISTURE_THRESHOLD_HIGH, Soil.TEMP_HEAT_STRESS, Soil.HUMIDITY_HEAT_STRESS,
      Soil.PH_MIN, Soil.PH_MAX]
  · norm_num [Water.waterRun, Water.waterLoopTick, Water.readSensors,
      Water.updateBaselineCharacterization, Water.finalizeBaseline,
      Water.storeBaselineSample, Water.initWaterState, Water.BASELINE_READINGS]

/-- Claim C7, amended: a NaN tick skips the sensor read, so the buffers and
the previous telemetry values are untouched and no new value enters the
window; but the rest of the tick still runs on the stale state -- the soil
tick on a NaN read is exactly `checkAlertConditions` applied to the old
state, and during the water baseline phase a NaN tick stores the stale
`currentData` values as a fresh baseline sample. -/
theorem C7_amended :
    (∀ s : Soil.SoilState,
      Soil.soilSensorTick s none = Soil.checkAlertConditions s ∧
      (Soil.soilSensorTick s none).moistureBuffer0 = s.moistureBuffer0 ∧
      (Soil.soilSensorTick s none).moistureBuffer1 = s.moistureBuffer1 ∧
      (Soil.soilSensorTick s none).bufferIndex = s.bufferIndex ∧
      (Soil.soilSensorTick s none).cur_pH = s.cur_pH) ∧
    (∀ s : Water.WaterState, s.baselineComplete = false →
      (Water.waterLoopTick s none).baselineCounter = s.baselineCounter + 1 ∧
      (Water.waterLoopTick s none).ph_baseline =
        s.ph_baseline.set s.baselineCounter s.cur_pH) := by
  constructor
  · intro s
    exact ⟨rfl, (Soil.checkAlert_buffers s).1, (Soil.checkAlert_buffers s).2.1,
      (Soil.checkAlert_buffers s).2.2.1, (Soil.checkAlert_buffers s).2.2.2⟩
  · intro s h
    unfold Water.waterLoopTick
    rw [show Water.readSensors s none = s from rfl, if_pos h]
    unfold Water.updateBaselineCharacterization Water.finalizeBaseline
      Water.storeBaselineSample
    rw [if_neg (by rw [h]; simp)]
    by_cases hc : Water.BASELINE_READINGS ≤ s.baselineCounter + 1
    · rw [if_pos hc]; exact ⟨rfl, rfl⟩
    · rw [if_neg hc]; exact ⟨rfl, rfl⟩

/-- Claim C7, witness for the amended theorem at the initial states. -/
theorem C7_witness :
    (Soil.soilSensorTick Soil.initSoilState none =
      Soil.checkAlertConditions Soil.initSoilState) ∧
    ((Water.waterLoopTick Water.initWaterState none).baselineCounter =
      Water.initWaterState.baselineCounter + 1) :=
  ⟨(C7_amended.1 Soil.initSoilState).1, (C7_amended.2 Water.initWaterState rfl).1⟩

/-- Claim C10, counterexample: with 32 readings the baseline completes
during the 32nd tick, before that tick's telemetry publish, so the
published baseline-complete flag is already true on a tick of the
characterization phase -- not false throughout the first 32 readings. -/
theorem C10_counterexample :
    (Water.waterRun ((List.replicate 32 Water.zeroRawInput).map some)).baselineComplete
      = true := by
  have h := Water.waterLoop_phase (List.replicate 32 Water.zeroRawInput) (by simp)
  exact h.2.1.trans (by simp)

/-- Claim C10, amended: during the baseline characterization phase (up to
and including the 32nd reading) no alert evaluation or quality-index
computation runs: alert level, quality index, rating and both alert flags
keep their initial zero values; the completion flag, however, is already
true in the telemetry of the 32nd reading's tick (it equals
`length = 32`), and false only on the first 31 ticks. -/
theorem C10_amended (ins : List Water.WaterInput) (h : ins.length ≤ 32) :
    (Water.waterRun (ins.map some)).cur_alertLevel = 0 ∧
    (Water.waterRun (ins.map some)).cur_wqi = 0 ∧
    (Water.waterRun (ins.map some)).cur_qualityRating = 0 ∧
    (Water.waterRun (ins.map some)).cautionAlertActive = false ∧
    (Water.waterRun (ins.map some)).criticalAlertActive = false ∧
    (Water.waterRun (ins.map some)).baselineComplete = decide (ins.length = 32) := by
  obtain ⟨_, hcomp, h1, h2, h3, h4, h5⟩ := Water.waterLoop_phase ins h
  exact ⟨h1, h2, h3, h4, h5, hcomp⟩

/-- Claim C10, witness after one reading: nothing evaluated, flag false. -/
theorem C10_witness :
    (Water.waterRun ([Water.zeroRawInput].map some)).cur_alertLevel = 0 ∧
    (Water.waterRun ([Water.zeroRawInput].map some)).baselineComplete = false := by
  have h := C10_amended [Water.zeroRawInput] (by norm_num)
  exact ⟨h.1, h.2.2.2.2.2.trans (by norm_num)⟩
